import Mathlib

/-!
Shallow embedding of the conversion-mcp-server converters:
`src/converters/htmlToPdf.ts`, `htmlToDocx.ts`, `markdownToHtml.ts`,
`markdownToPdf.ts`, `markdownToDocx.ts`.

External collaborators (marked, sanitize-html, puppeteer, html-docx-js)
are modelled as opaque oracles passed in as parameters.  JavaScript
strings are modelled as Lean `String`, JSON numbers as `ℚ` (rational
constants are written with `mkRat`, e.g. `0.1` is `mkRat 1 10`), byte
buffers as `List ℕ`, and loosely-typed option bags as a JSON value type
`JVal`.  zod schema validation (`safeParse`) is modelled per schema,
following zod's default object semantics: declared keys are checked,
undeclared keys are silently stripped, error messages name the
offending field.
-/

namespace Conv

/-! ## JavaScript value semantics helpers -/

/-- Truthiness of a possibly-absent JS string: `undefined` and `""` are falsy. -/
def jsTruthyS : Option String → Bool
  | some s => !s.isEmpty
  | none => false

/-- `v || d` for a possibly-absent JS string (empty string is falsy). -/
def jsOrS (v : Option String) (d : String) : String :=
  match v with
  | some s => if s.isEmpty then d else s
  | none => d

/-- `v || d` for a possibly-absent JS number (`0` is falsy). -/
def jsOrN (v : Option Nat) (d : Nat) : Nat :=
  match v with
  | some n => if n = 0 then d else n
  | none => d

/-- Template-literal interpolation of a possibly-undefined string
(`undefined` prints as `"undefined"`). -/
def jsShow : Option String → String
  | some s => s
  | none => "undefined"

/-- `v !== false` for a possibly-absent JS boolean. -/
def jsNotFalse : Option Bool → Bool
  | some false => false
  | _ => true

/-! ## String utilities (modelling `String.prototype.includes`, first-occurrence
`String.prototype.replace` and `Array.prototype.join`) -/

/-- Whether `p` is a leading run of `l` (Boolean prefix test on char lists). -/
def startsWithL : List Char → List Char → Bool
  | [], _ => true
  | _ :: _, [] => false
  | p :: ps, c :: cs => p == c && startsWithL ps cs

/-- Whether `pat` occurs somewhere inside `l`. -/
def containsSeq (pat : List Char) : List Char → Bool
  | [] => pat.isEmpty
  | c :: cs => startsWithL pat (c :: cs) || containsSeq pat cs

/-- JS `s.includes(pat)`. -/
def jsIncludes (s pat : String) : Bool :=
  containsSeq pat.data s.data

/-- Replace the first occurrence of `pat` in the list by `repl`
(JS `String.prototype.replace` with a string pattern). -/
def replFirstL (pat repl : List Char) : List Char → List Char
  | [] => []
  | c :: cs =>
    if startsWithL pat (c :: cs) then repl ++ (c :: cs).drop pat.length
    else c :: replFirstL pat repl cs

/-- JS `s.replace(pat, repl)` (first occurrence only). -/
def replaceFirst (s pat repl : String) : String :=
  ⟨replFirstL pat.data repl.data s.data⟩

/-- JS `parts.join(sep)`. -/
def joinSep (sep : String) : List String → String
  | [] => ""
  | [x] => x
  | x :: y :: xs => x ++ sep ++ joinSep sep (y :: xs)

/-! ## JSON values and the option shapes of the five zod schemas -/

/-- A loosely-typed JavaScript/JSON value, the input of option validation. -/
inductive JVal where
  | str : String → JVal
  | num : ℚ → JVal
  | bool : Bool → JVal
  | arr : List JVal → JVal
  | obj : List (String × JVal) → JVal
  | null : JVal

/-- `HtmlToPdfOptionsSchema`'s `margin` sub-object (CSS length strings). -/
structure PdfMarginOpts where
  top : Option String
  right : Option String
  bottom : Option String
  left : Option String

/-- Validated `HtmlToPdfOptions` (all fields optional, as in the zod schema). -/
structure HtmlToPdfOptions where
  format : Option String
  margin : Option PdfMarginOpts
  printBackground : Option Bool
  landscape : Option Bool
  scale : Option ℚ
  displayHeaderFooter : Option Bool
  headerTemplate : Option String
  footerTemplate : Option String
  preferCSSPageSize : Option Bool
  width : Option String
  height : Option String

/-- `HtmlToDocxOptionsSchema`'s `margins` sub-object (twip numbers). -/
structure DocxMarginsOpts where
  top : Option ℚ
  right : Option ℚ
  bottom : Option ℚ
  left : Option ℚ
  header : Option ℚ
  footer : Option ℚ
  gutter : Option ℚ

/-- Validated `HtmlToDocxOptions`. -/
structure HtmlToDocxOptions where
  orientation : Option String
  margins : Option DocxMarginsOpts
  title : Option String
  subject : Option String
  creator : Option String
  keywords : Option String
  description : Option String

/-- `sanitizerOptions` sub-object shared by the Markdown schemas. -/
structure SanitizerOptions where
  allowedTags : Option (List String)
  allowedAttributes : Option (List (String × List String))
  allowedSchemes : Option (List String)
  allowedClasses : Option (List (String × List String))

/-- Validated `MarkdownToHtmlOptions`. -/
structure MdHtmlOptions where
  sanitize : Option Bool
  breaks : Option Bool
  gfm : Option Bool
  mangle : Option Bool
  pedantic : Option Bool
  sanitizerOptions : Option SanitizerOptions

/-- Validated `MarkdownToDocxOptions` (flat bag of stage options). -/
structure MdDocxOptions where
  sanitize : Option Bool
  breaks : Option Bool
  gfm : Option Bool
  mangle : Option Bool
  pedantic : Option Bool
  sanitizerOptions : Option SanitizerOptions
  orientation : Option String
  margins : Option DocxMarginsOpts
  title : Option String
  subject : Option String
  creator : Option String
  keywords : Option String
  description : Option String
  fullDocument : Option Bool
  cssStyles : Option String

/-- `MarkdownToPdfOptionsSchema`'s `documentOptions` sub-object. -/
structure DocOpts where
  title : Option String
  cssStyles : Option String
  fullDocument : Option Bool

/-- Validated `MarkdownToPdfOptions` (nested stage option bags). -/
structure MdPdfOptions where
  markdownOptions : Option MdHtmlOptions
  pdfOptions : Option HtmlToPdfOptions
  documentOptions : Option DocOpts

/-- All-absent `MarkdownToHtmlOptions` (what `safeParse(undefined)` yields). -/
def mdHtmlNone : MdHtmlOptions := ⟨none, none, none, none, none, none⟩

/-- All-absent `HtmlToPdfOptions`. -/
def pdfOptsNone : HtmlToPdfOptions :=
  ⟨none, none, none, none, none, none, none, none, none, none, none⟩

/-- All-absent `HtmlToDocxOptions`. -/
def docxOptsNone : HtmlToDocxOptions := ⟨none, none, none, none, none, none, none⟩

/-- All-absent `MarkdownToDocxOptions`. -/
def mdDocxNone : MdDocxOptions :=
  ⟨none, none, none, none, none, none, none, none, none, none, none, none, none,
   none, none⟩

/-- All-absent `MarkdownToPdfOptions`. -/
def mdPdfNone : MdPdfOptions := ⟨none, none, none⟩

/-! ## Field validators (model of zod's per-field checks; messages name the field) -/

/-- `z.boolean().optional()` at key `k`. -/
def pBool (v : Option JVal) (k : String) : Except String (Option Bool) :=
  match v with
  | none => .ok none
  | some (.bool b) => .ok (some b)
  | some _ => .error ("Expected boolean at " ++ k)

/-- `z.string().optional()` at key `k`. -/
def pStr (v : Option JVal) (k : String) : Except String (Option String) :=
  match v with
  | none => .ok none
  | some (.str s) => .ok (some s)
  | some _ => .error ("Expected string at " ++ k)

/-- `z.number().optional()` at key `k`. -/
def pNum (v : Option JVal) (k : String) : Except String (Option ℚ) :=
  match v with
  | none => .ok none
  | some (.num q) => .ok (some q)
  | some _ => .error ("Expected number at " ++ k)

/-- `z.number().min(0.1).max(2).optional()` at key `k` (the `scale` knob). -/
def pScale (v : Option JVal) (k : String) : Except String (Option ℚ) :=
  match v with
  | none => .ok none
  | some (.num q) =>
    if q < mkRat 1 10 then
      .error ("Number must be greater than or equal to 0.1 at " ++ k)
    else if mkRat 2 1 < q then
      .error ("Number must be less than or equal to 2 at " ++ k)
    else .ok (some q)
  | some _ => .error ("Expected number at " ++ k)

/-- `z.enum(vals).optional()` at key `k`. -/
def pEnum (v : Option JVal) (vals : List String) (k : String) :
    Except String (Option String) :=
  match v with
  | none => .ok none
  | some (.str s) =>
    if vals.contains s then .ok (some s)
    else .error ("Invalid enum value at " ++ k)
  | some _ => .error ("Invalid enum value at " ++ k)

/-- Collect a list of JSON values that must all be strings. -/
def asStrAll : List JVal → Option (List String)
  | [] => some []
  | .str s :: rest => (asStrAll rest).map (s :: ·)
  | _ => none

/-- `z.array(z.string()).optional()` at key `k`. -/
def pStrList (v : Option JVal) (k : String) : Except String (Option (List String)) :=
  match v with
  | none => .ok none
  | some (.arr xs) =>
    match asStrAll xs with
    | some l => .ok (some l)
    | none => .error ("Expected string array at " ++ k)
  | some _ => .error ("Expected array at " ++ k)

/-- Collect a JSON record whose values must all be string arrays. -/
def asStrListRecord : List (String × JVal) → Option (List (String × List String))
  | [] => some []
  | (k, .arr xs) :: rest =>
    match asStrAll xs, asStrListRecord rest with
    | some l, some r => some ((k, l) :: r)
    | _, _ => none
  | _ => none

/-- `z.record(z.array(z.string())).optional()` at key `k`. -/
def pRecArr (v : Option JVal) (k : String) :
    Except String (Option (List (String × List String))) :=
  match v with
  | none => .ok none
  | some (.obj kvs) =>
    match asStrListRecord kvs with
    | some r => .ok (some r)
    | none => .error ("Expected record of string arrays at " ++ k)
  | some _ => .error ("Expected record at " ++ k)

/-- `z.object(...).optional()` at key `k`: validate a nested object with `f`. -/
def pObj {α : Type} (v : Option JVal) (k : String)
    (f : List (String × JVal) → Except String α) : Except String (Option α) :=
  match v with
  | none => .ok none
  | some (.obj kvs) => (f kvs).map some
  | some _ => .error ("Expected object at " ++ k)

/-! ## The five option schemas -/

/-- The paper-format enum of `HtmlToPdfOptionsSchema`. -/
def pdfFormats : List String :=
  ["A4", "A3", "A2", "A1", "A0", "Legal", "Letter", "Tabloid"]

/-- Validator for the `margin` sub-object of `HtmlToPdfOptionsSchema`. -/
def parsePdfMarginObj (kvs : List (String × JVal)) : Except String PdfMarginOpts := do
  let t ← pStr (kvs.lookup "top") "top"
  let r ← pStr (kvs.lookup "right") "right"
  let b ← pStr (kvs.lookup "bottom") "bottom"
  let l ← pStr (kvs.lookup "left") "left"
  pure ⟨t, r, b, l⟩

/-- Validator for the body of `HtmlToPdfOptionsSchema`. -/
def parseHtmlToPdfObj (kvs : List (String × JVal)) : Except String HtmlToPdfOptions := do
  let format ← pEnum (kvs.lookup "format") pdfFormats "format"
  let margin ← pObj (kvs.lookup "margin") "margin" parsePdfMarginObj
  let printBackground ← pBool (kvs.lookup "printBackground") "printBackground"
  let landscape ← pBool (kvs.lookup "landscape") "landscape"
  let scale ← pScale (kvs.lookup "scale") "scale"
  let displayHeaderFooter ← pBool (kvs.lookup "displayHeaderFooter") "displayHeaderFooter"
  let headerTemplate ← pStr (kvs.lookup "headerTemplate") "headerTemplate"
  let footerTemplate ← pStr (kvs.lookup "footerTemplate") "footerTemplate"
  let preferCSSPageSize ← pBool (kvs.lookup "preferCSSPageSize") "preferCSSPageSize"
  let width ← pStr (kvs.lookup "width") "width"
  let height ← pStr (kvs.lookup "height") "height"
  pure ⟨format, margin, printBackground, landscape, scale, displayHeaderFooter,
        headerTemplate, footerTemplate, preferCSSPageSize, width, height⟩

/-- `HtmlToPdfOptionsSchema.safeParse` (the whole schema is `.optional()`). -/
def parseHtmlToPdfOptions : Option JVal → Except String HtmlToPdfOptions
  | none => .ok pdfOptsNone
  | some (.obj kvs) => parseHtmlToPdfObj kvs
  | some _ => .error "Expected object"

/-- Validator for the `margins` sub-object of `HtmlToDocxOptionsSchema`. -/
def parseDocxMarginsObj (kvs : List (String × JVal)) : Except String DocxMarginsOpts := do
  let t ← pNum (kvs.lookup "top") "top"
  let r ← pNum (kvs.lookup "right") "right"
  let b ← pNum (kvs.lookup "bottom") "bottom"
  let l ← pNum (kvs.lookup "left") "left"
  let h ← pNum (kvs.lookup "header") "header"
  let f ← pNum (kvs.lookup "footer") "footer"
  let g ← pNum (kvs.lookup "gutter") "gutter"
  pure ⟨t, r, b, l, h, f, g⟩

/-- Validator for the body of `HtmlToDocxOptionsSchema`. -/
def parseHtmlToDocxObj (kvs : List (String × JVal)) : Except String HtmlToDocxOptions := do
  let orientation ← pEnum (kvs.lookup "orientation") ["portrait", "landscape"] "orientation"
  let margins ← pObj (kvs.lookup "margins") "margins" parseDocxMarginsObj
  let title ← pStr (kvs.lookup "title") "title"
  let subject ← pStr (kvs.lookup "subject") "subject"
  let creator ← pStr (kvs.lookup "creator") "creator"
  let keywords ← pStr (kvs.lookup "keywords") "keywords"
  let description ← pStr (kvs.lookup "description") "description"
  pure ⟨orientation, margins, title, subject, creator, keywords, description⟩

/-- `HtmlToDocxOptionsSchema.safeParse`. -/
def parseHtmlToDocxOptions : Option JVal → Except String HtmlToDocxOptions
  | none => .ok docxOptsNone
  | some (.obj kvs) => parseHtmlToDocxObj kvs
  | some _ => .error "Expected object"

/-- Validator for the `sanitizerOptions` sub-object. -/
def parseSanitizerObj (kvs : List (String × JVal)) : Except String SanitizerOptions := do
  let tags ← pStrList (kvs.lookup "allowedTags") "allowedTags"
  let attrs ← pRecArr (kvs.lookup "allowedAttributes") "allowedAttributes"
  let schemes ← pStrList (kvs.lookup "allowedSchemes") "allowedSchemes"
  let classes ← pRecArr (kvs.lookup "allowedClasses") "allowedClasses"
  pure ⟨tags, attrs, schemes, classes⟩

/-- Validator for the body of `MarkdownToHtmlOptionsSchema`. -/
def parseMdHtmlObj (kvs : List (String × JVal)) : Except String MdHtmlOptions := do
  let sanitize ← pBool (kvs.lookup "sanitize") "sanitize"
  let breaks ← pBool (kvs.lookup "breaks") "breaks"
  let gfm ← pBool (kvs.lookup "gfm") "gfm"
  let mangle ← pBool (kvs.lookup "mangle") "mangle"
  let pedantic ← pBool (kvs.lookup "pedantic") "pedantic"
  let sanitizerOptions ← pObj (kvs.lookup "sanitizerOptions") "sanitizerOptions" parseSanitizerObj
  pure ⟨sanitize, breaks, gfm, mangle, pedantic, sanitizerOptions⟩

/-- `MarkdownToHtmlOptionsSchema.safeParse`. -/
def parseMdHtmlOptions : Option JVal → Except String MdHtmlOptions
  | none => .ok mdHtmlNone
  | some (.obj kvs) => parseMdHtmlObj kvs
  | some _ => .error "Expected object"

/-- Validator for the body of `MarkdownToDocxOptionsSchema`. -/
def parseMdDocxObj (kvs : List (String × JVal)) : Except String MdDocxOptions := do
  let sanitize ← pBool (kvs.lookup "sanitize") "sanitize"
  let breaks ← pBool (kvs.lookup "breaks") "breaks"
  let gfm ← pBool (kvs.lookup "gfm") "gfm"
  let mangle ← pBool (kvs.lookup "mangle") "mangle"
  let pedantic ← pBool (kvs.lookup "pedantic") "pedantic"
  let sanitizerOptions ← pObj (kvs.lookup "sanitizerOptions") "sanitizerOptions" parseSanitizerObj
  let orientation ← pEnum (kvs.lookup "orientation") ["portrait", "landscape"] "orientation"
  let margins ← pObj (kvs.lookup "margins") "margins" parseDocxMarginsObj
  let title ← pStr (kvs.lookup "title") "title"
  let subject ← pStr (kvs.lookup "subject") "subject"
  let creator ← pStr (kvs.lookup "creator") "creator"
  let keywords ← pStr (kvs.lookup "keywords") "keywords"
  let description ← pStr (kvs.lookup "description") "description"
  let fullDocument ← pBool (kvs.lookup "fullDocument") "fullDocument"
  let cssStyles ← pStr (kvs.lookup "cssStyles") "cssStyles"
  pure ⟨sanitize, breaks, gfm, mangle, pedantic, sanitizerOptions, orientation,
        margins, title, subject, creator, keywords, description, fullDocument,
        cssStyles⟩

/-- `MarkdownToDocxOptionsSchema.safeParse`. -/
def parseMdDocxOptions : Option JVal → Except String MdDocxOptions
  | none => .ok mdDocxNone
  | some (.obj kvs) => parseMdDocxObj kvs
  | some _ => .error "Expected object"

/-- Validator for the `documentOptions` sub-object of `MarkdownToPdfOptionsSchema`. -/
def parseDocObj (kvs : List (String × JVal)) : Except String DocOpts := do
  let title ← pStr (kvs.lookup "title") "title"
  let cssStyles ← pStr (kvs.lookup "cssStyles") "cssStyles"
  let fullDocument ← pBool (kvs.lookup "fullDocument") "fullDocument"
  pure ⟨title, cssStyles, fullDocument⟩

/-- Validator for the body of `MarkdownToPdfOptionsSchema`. -/
def parseMdPdfObj (kvs : List (String × JVal)) : Except String MdPdfOptions := do
  let markdownOptions ← pObj (kvs.lookup "markdownOptions") "markdownOptions" parseMdHtmlObj
  let pdfOptions ← pObj (kvs.lookup "pdfOptions") "pdfOptions" parseHtmlToPdfObj
  let documentOptions ← pObj (kvs.lookup "documentOptions") "documentOptions" parseDocObj
  pure ⟨markdownOptions, pdfOptions, documentOptions⟩

/-- `MarkdownToPdfOptionsSchema.safeParse`. -/
def parseMdPdfOptions : Option JVal → Except String MdPdfOptions
  | none => .ok mdPdfNone
  | some (.obj kvs) => parseMdPdfObj kvs
  | some _ => .error "Expected object"

/-! ## Defaults and option merging (JS object spread over `DEFAULT_OPTIONS`) -/

/-- `HtmlToPdfConverter.DEFAULT_OPTIONS` merged with validated options:
a spread only overrides the keys the validated object actually has. -/
structure MergedPdfOptions where
  format : String
  margin : PdfMarginOpts
  printBackground : Bool
  landscape : Option Bool
  scale : Option ℚ
  displayHeaderFooter : Bool
  headerTemplate : Option String
  footerTemplate : Option String
  preferCSSPageSize : Bool
  width : Option String
  height : Option String

/-- `{...DEFAULT_OPTIONS, ...validatedOptions.data}` for the PDF converter. -/
def mergePdfDefaults (o : HtmlToPdfOptions) : MergedPdfOptions :=
  { format := o.format.getD "A4"
    margin := o.margin.getD ⟨some "1cm", some "1cm", some "1cm", some "1cm"⟩
    printBackground := o.printBackground.getD true
    landscape := o.landscape
    scale := o.scale
    displayHeaderFooter := o.displayHeaderFooter.getD false
    headerTemplate := o.headerTemplate
    footerTemplate := o.footerTemplate
    preferCSSPageSize := o.preferCSSPageSize.getD false
    width := o.width
    height := o.height }

/-- `HtmlToDocxConverter.DEFAULT_OPTIONS.margins`: 1440 twips (1 inch) per edge. -/
def docxDefaultMargins : DocxMarginsOpts :=
  ⟨some (mkRat 1440 1), some (mkRat 1440 1), some (mkRat 1440 1),
   some (mkRat 1440 1), none, none, none⟩

/-- `HtmlToDocxConverter.DEFAULT_OPTIONS` merged with validated options. -/
structure MergedDocxOptions where
  orientation : String
  margins : DocxMarginsOpts
  title : Option String
  subject : Option String
  creator : Option String
  keywords : Option String
  description : Option String

/-- `{...DEFAULT_OPTIONS, ...validatedOptions.data}` for the DOCX converter. -/
def mergeDocxDefaults (o : HtmlToDocxOptions) : MergedDocxOptions :=
  { orientation := o.orientation.getD "portrait"
    margins := o.margins.getD docxDefaultMargins
    title := o.title
    subject := o.subject
    creator := o.creator
    keywords := o.keywords
    description := o.description }

/-- Effective sanitizer policy after merging over the built-in default. -/
structure EffSanitizerOptions where
  allowedTags : List String
  allowedAttributes : List (String × List String)
  allowedSchemes : List String
  allowedClasses : List (String × List String)

/-- `MarkdownToHtmlConverter.DEFAULT_SANITIZER_OPTIONS`. -/
def defaultSanitizerOptions : EffSanitizerOptions :=
  { allowedTags :=
      ["h1", "h2", "h3", "h4", "h5", "h6",
       "p", "br", "hr",
       "strong", "em", "u", "s", "b", "i",
       "ul", "ol", "li",
       "blockquote", "pre", "code",
       "a", "img",
       "table", "thead", "tbody", "tr", "th", "td",
       "div", "span"]
    allowedAttributes :=
      [("a", ["href", "title", "target"]),
       ("img", ["src", "alt", "title", "width", "height"]),
       ("blockquote", ["cite"]),
       ("th", ["align", "colspan", "rowspan"]),
       ("td", ["align", "colspan", "rowspan"]),
       ("div", ["class", "id"]),
       ("span", ["class", "id"]),
       ("pre", ["class"]),
       ("code", ["class"])]
    allowedSchemes := ["http", "https", "mailto"]
    allowedClasses := [("pre", ["language-*"]), ("code", ["language-*"])] }

/-- `{...DEFAULT_SANITIZER_OPTIONS, ...opts.sanitizerOptions}` (shallow spread). -/
def mergeSanitizer (o : Option SanitizerOptions) : EffSanitizerOptions :=
  match o with
  | none => defaultSanitizerOptions
  | some s =>
    { allowedTags := s.allowedTags.getD defaultSanitizerOptions.allowedTags
      allowedAttributes := s.allowedAttributes.getD defaultSanitizerOptions.allowedAttributes
      allowedSchemes := s.allowedSchemes.getD defaultSanitizerOptions.allowedSchemes
      allowedClasses := s.allowedClasses.getD defaultSanitizerOptions.allowedClasses }

/-- The three knobs handed to `marked.setOptions`. -/
structure MarkedCfg where
  breaks : Bool
  gfm : Bool
  pedantic : Bool

/-- `marked.setOptions({breaks: opts.breaks || false, gfm: opts.gfm !== false,
pedantic: opts.pedantic || false})`. -/
def markedConfigOf (o : MdHtmlOptions) : MarkedCfg :=
  ⟨o.breaks.getD false, o.gfm.getD true, o.pedantic.getD false⟩

/-! ## Result envelope and external-collaborator oracles -/

/-- The uniform `ConversionResult` envelope: `data` over payload type `δ`,
kind-specific metadata `μ`. -/
structure CResult (δ μ : Type) where
  success : Bool
  data : Option δ
  error : Option String
  metadata : Option μ

/-- A failure envelope `{success: false, error: e}`. -/
def failR {δ μ : Type} (e : String) : CResult δ μ := ⟨false, none, some e, none⟩

/-- A success envelope `{success: true, data: d, metadata: m}`. -/
def okR {δ μ : Type} (d : δ) (m : μ) : CResult δ μ := ⟨true, some d, none, some m⟩

/-- Metadata of `markdown→html`. -/
structure MdHtmlMeta where
  originalLength : Nat
  htmlLength : Nat
  sanitized : Bool

/-- Metadata of `html→pdf` / `url→pdf`. -/
structure PdfMeta where
  size : Nat
  pages : Option Nat

/-- Metadata of `html→docx`. -/
structure DocxMeta where
  size : Nat

/-- Metadata of the `markdown→pdf` composer. -/
structure MdPdfMeta where
  markdownLength : Nat
  htmlLength : Nat
  pdfSize : Nat
  sanitized : Bool

/-- Metadata of the `markdown→docx` composer. -/
structure MdDocxMeta where
  size : Nat
  originalLength : Nat
  htmlLength : Nat
  sanitized : Bool

/-- `htmlResult.metadata?.sanitized || false`. -/
def sanFlag : Option MdHtmlMeta → Bool
  | some m => m.sanitized
  | none => false

/-- Oracle for the headless rendering engine (puppeteer): each step may
succeed or raise with a message; `render` yields the PDF bytes. -/
structure PdfEngine where
  launch : Except String Unit
  newPage : Except String Unit
  load : String → Except String Unit
  goto : String → Except String Unit
  render : String → MergedPdfOptions → Except String (List Nat)

/-- Whether the engine instance was launched and whether `browser.close()`
was invoked during a call. -/
structure BrowserTrace where
  launched : Bool
  closed : Bool

/-- What `asBlob` may hand back (Buffer, Blob, or something unexpected). -/
inductive DocxRet where
  | buffer : List Nat → DocxRet
  | blob : List Nat → DocxRet
  | other : String → DocxRet

/-- The option object handed to `asBlob`. -/
structure DocxLibOpts where
  orientation : Option String
  margins : Option DocxMarginsOpts

/-- Oracle for the `html-docx-js` `asBlob` emitter. -/
def DocxLib : Type := String → DocxLibOpts → Except String DocxRet

/-- Oracle for `marked.parse` under a `setOptions` configuration. -/
def MarkedFn : Type := MarkedCfg → String → Except String String

/-- Oracle for `sanitize-html` under an effective policy. -/
def SanitizeFn : Type := EffSanitizerOptions → String → String

/-- Oracle for a `fetch` response (URL→DOCX variant). -/
structure FetchResp where
  ok : Bool
  status : Nat
  statusText : String
  bodyText : String

/-! ## Markdown→HTML stage (`MarkdownToHtmlConverter`) -/

/-- Body of `convertMarkdownToHtml` after input check and option validation:
configure marked, parse, optionally sanitize, and report lengths. -/
def convertMarkdownToHtmlCore (P : MarkedFn) (S : SanitizeFn) (markdown : String)
    (opts : MdHtmlOptions) : CResult String MdHtmlMeta :=
  match P (markedConfigOf opts) markdown with
  | .error e => failR ("Markdown conversion failed: " ++ e)
  | .ok parsed =>
    let html := if opts.sanitize.getD false then
        S (mergeSanitizer opts.sanitizerOptions) parsed
      else parsed
    let sanitized := opts.sanitize.getD false
    okR html ⟨markdown.length, html.length, sanitized⟩

/-- `convertMarkdownToHtml` called with an already well-typed options value
(zod revalidation of such a value succeeds and returns it unchanged, so the
composers reach this directly). -/
def convertMarkdownToHtmlTyped (P : MarkedFn) (S : SanitizeFn) (markdown : String)
    (opts : MdHtmlOptions) : CResult String MdHtmlMeta :=
  if markdown.isEmpty then
    failR "Invalid markdown input: Markdown must be a non-empty string"
  else convertMarkdownToHtmlCore P S markdown opts

/-- `MarkdownToHtmlConverter.convertMarkdownToHtml` on a raw options value. -/
def convertMarkdownToHtml (P : MarkedFn) (S : SanitizeFn) (markdown : String)
    (options : Option JVal) : CResult String MdHtmlMeta :=
  if markdown.isEmpty then
    failR "Invalid markdown input: Markdown must be a non-empty string"
  else
    match parseMdHtmlOptions options with
    | .error m => failR ("Invalid options: " ++ m)
    | .ok opts => convertMarkdownToHtmlCore P S markdown opts

/-- `convertMarkdownFileToHtml`: `read` is the `fs.readFile` outcome. -/
def convertMarkdownFileToHtml (P : MarkedFn) (S : SanitizeFn)
    (read : Except String String) (options : Option JVal) : CResult String MdHtmlMeta :=
  match read with
  | .error e => failR ("Failed to read markdown file: " ++ e)
  | .ok markdown => convertMarkdownToHtml P S markdown options

/-- The built-in stylesheet of `createFullHtmlDocument` (braces written as
escapes `\x7b`/`\x7d`, apostrophes as `\x27`). -/
def defaultStyles : String :=
  "
      body \x7b
        font-family: -apple-system, BlinkMacSystemFont, \x27Segoe UI\x27, \x27Roboto\x27, sans-serif;
        line-height: 1.6;
        color: #333;
        max-width: 800px;
        margin: 0 auto;
        padding: 20px;
      \x7d

      h1, h2, h3, h4, h5, h6 \x7b
        margin-top: 1.5em;
        margin-bottom: 0.5em;
      \x7d

      pre \x7b
        background: #f5f5f5;
        padding: 15px;
        border-radius: 5px;
        overflow-x: auto;
      \x7d

      code \x7b
        background: #f5f5f5;
        padding: 2px 4px;
        border-radius: 3px;
        font-family: \x27Monaco\x27, \x27Menlo\x27, \x27Ubuntu Mono\x27, monospace;
      \x7d

      blockquote \x7b
        border-left: 4px solid #ddd;
        margin: 0;
        padding-left: 20px;
        color: #666;
      \x7d

      table \x7b
        border-collapse: collapse;
        width: 100%;
        margin: 1em 0;
      \x7d

      th, td \x7b
        border: 1px solid #ddd;
        padding: 8px 12px;
        text-align: left;
      \x7d

      th \x7b
        background-color: #f5f5f5;
        font-weight: bold;
      \x7d

      img \x7b
        max-width: 100%;
        height: auto;
      \x7d

      a \x7b
        color: #0066cc;
        text-decoration: none;
      \x7d

      a:hover \x7b
        text-decoration: underline;
      \x7d
    "

/-- `MarkdownToHtmlConverter.createFullHtmlDocument`: wrap a fragment in a
complete document shell with head metadata, the default stylesheet and
caller CSS appended after it. -/
def createFullHtmlDocument (htmlContent : String) (title : String)
    (cssStyles : Option String) : String :=
  "<!DOCTYPE html>\n<html lang=\"en\">\n<head>\n  <meta charset=\"UTF-8\">\n  <meta name=\"viewport\" content=\"width=device-width, initial-scale=1.0\">\n  <title>"
    ++ title
    ++ "</title>\n  <style>\n    "
    ++ defaultStyles
    ++ "\n    "
    ++ jsOrS cssStyles ""
    ++ "\n  </style>\n</head>\n<body>\n  "
    ++ htmlContent
    ++ "\n</body>\n</html>"

/-! ## HTML→PDF stage (`HtmlToPdfConverter`) -/

/-- Trace of a call that never reaches `puppeteer.launch`. -/
def noBrowser : BrowserTrace := ⟨false, false⟩

/-- Body of `convertHtmlToPdf` after input check and option validation:
launch, new page, set content, render, with the `finally` close recorded
in the trace. -/
def convertHtmlToPdfTyped (eng : PdfEngine) (html : String) (o : HtmlToPdfOptions) :
    CResult (List Nat) PdfMeta × BrowserTrace :=
  let pdfOptions := mergePdfDefaults o
  match eng.launch with
  | .error e => (failR ("PDF generation failed: " ++ e), noBrowser)
  | .ok _ =>
    match eng.newPage with
    | .error e => (failR ("PDF generation failed: " ++ e), ⟨true, true⟩)
    | .ok _ =>
      match eng.load html with
      | .error e => (failR ("PDF generation failed: " ++ e), ⟨true, true⟩)
      | .ok _ =>
        match eng.render html pdfOptions with
        | .error e => (failR ("PDF generation failed: " ++ e), ⟨true, true⟩)
        | .ok bytes => (okR bytes ⟨bytes.length, none⟩, ⟨true, true⟩)

/-- `convertHtmlToPdf` called with an already well-typed options value
(zod revalidation succeeds unchanged; used by the Markdown→PDF composer). -/
def convertHtmlToPdfWithOpts (eng : PdfEngine) (html : String)
    (o : HtmlToPdfOptions) : CResult (List Nat) PdfMeta × BrowserTrace :=
  if html.isEmpty then
    (failR "Invalid HTML input: HTML must be a non-empty string", noBrowser)
  else convertHtmlToPdfTyped eng html o

/-- `HtmlToPdfConverter.convertHtmlToPdf` on a raw options value. -/
def convertHtmlToPdf (eng : PdfEngine) (html : String) (options : Option JVal) :
    CResult (List Nat) PdfMeta × BrowserTrace :=
  if html.isEmpty then
    (failR "Invalid HTML input: HTML must be a non-empty string", noBrowser)
  else
    match parseHtmlToPdfOptions options with
    | .error m => (failR ("Invalid options: " ++ m), noBrowser)
    | .ok o => convertHtmlToPdfTyped eng html o

/-- `convertHtmlFileToPdf`: `read` is the `fs.readFile` outcome. -/
def convertHtmlFileToPdf (eng : PdfEngine) (read : Except String String)
    (options : Option JVal) : CResult (List Nat) PdfMeta × BrowserTrace :=
  match read with
  | .error e => (failR ("Failed to read HTML file: " ++ e), noBrowser)
  | .ok html => convertHtmlToPdf eng html options

/-- Body of `convertUrlToPdf` after input check and option validation. -/
def convertUrlToPdfTyped (eng : PdfEngine) (url : String) (o : HtmlToPdfOptions) :
    CResult (List Nat) PdfMeta × BrowserTrace :=
  let pdfOptions := mergePdfDefaults o
  match eng.launch with
  | .error e => (failR ("PDF generation from URL failed: " ++ e), noBrowser)
  | .ok _ =>
    match eng.newPage with
    | .error e => (failR ("PDF generation from URL failed: " ++ e), ⟨true, true⟩)
    | .ok _ =>
      match eng.goto url with
      | .error e => (failR ("PDF generation from URL failed: " ++ e), ⟨true, true⟩)
      | .ok _ =>
        match eng.render url pdfOptions with
        | .error e => (failR ("PDF generation from URL failed: " ++ e), ⟨true, true⟩)
        | .ok bytes => (okR bytes ⟨bytes.length, none⟩, ⟨true, true⟩)

/-- `HtmlToPdfConverter.convertUrlToPdf`. -/
def convertUrlToPdf (eng : PdfEngine) (url : String) (options : Option JVal) :
    CResult (List Nat) PdfMeta × BrowserTrace :=
  if url.isEmpty then
    (failR "Invalid URL input: URL must be a non-empty string", noBrowser)
  else
    match parseHtmlToPdfOptions options with
    | .error m => (failR ("Invalid options: " ++ m), noBrowser)
    | .ok o => convertUrlToPdfTyped eng url o

/-! ## HTML→DOCX stage (`HtmlToDocxConverter`) -/

/-- The metadata elements built for the document head, in source order
(only truthy options contribute). -/
def headContentOf (m : MergedDocxOptions) : List String :=
  (if jsTruthyS m.title then ["<title>" ++ jsShow m.title ++ "</title>"] else [])
  ++ (if jsTruthyS m.subject then
        ["<meta name=\"subject\" content=\"" ++ jsShow m.subject ++ "\">"] else [])
  ++ (if jsTruthyS m.creator then
        ["<meta name=\"creator\" content=\"" ++ jsShow m.creator ++ "\">"] else [])
  ++ (if jsTruthyS m.keywords then
        ["<meta name=\"keywords\" content=\"" ++ jsShow m.keywords ++ "\">"] else [])
  ++ (if jsTruthyS m.description then
        ["<meta name=\"description\" content=\"" ++ jsShow m.description ++ "\">"] else [])

/-- `headContent.join('\n              ')`. -/
def headJoined (m : MergedDocxOptions) : String :=
  joinSep "\n              " (headContentOf m)

/-- The minimal full-document shell used when the HTML has neither an
`<html` nor a `<head` marker. -/
def wrapShell (joined html : String) : String :=
  "\n            <!DOCTYPE html>\n            <html>\n            <head>\n              "
    ++ joined
    ++ "\n            </head>\n            <body>\n              "
    ++ html
    ++ "\n            </body>\n            </html>\n          "

/-- The HTML actually handed to the DOCX emitter: metadata is injected only
when one of title/subject/creator is truthy; wrap when no markers, insert
after the first `<head>` otherwise. -/
def docxEmitInput (html : String) (m : MergedDocxOptions) : String :=
  if jsTruthyS m.title || jsTruthyS m.subject || jsTruthyS m.creator then
    if !jsIncludes html "<html" && !jsIncludes html "<head" then
      wrapShell (headJoined m) html
    else if jsIncludes html "<head>" then
      replaceFirst html "<head>" ("<head>\n              " ++ headJoined m)
    else html
  else html

/-- The `libOptions` object handed to `asBlob` (orientation/margins are
assigned under truthiness checks; both are always present after merging). -/
def mkLibOpts (m : MergedDocxOptions) : DocxLibOpts :=
  { orientation := if m.orientation.isEmpty then none else some m.orientation
    margins := some m.margins }

/-- Body of `convertHtmlToDocx` after input check and option validation.
The second component records the HTML handed to `asBlob` (`none` if the
emitter was never invoked). -/
def convertHtmlToDocxTyped (lib : DocxLib) (html : String) (o : HtmlToDocxOptions) :
    CResult (List Nat) DocxMeta × Option String :=
  let m := mergeDocxDefaults o
  let processedHtml := docxEmitInput html m
  match lib processedHtml (mkLibOpts m) with
  | .error e => (failR ("DOCX generation failed: " ++ e), some processedHtml)
  | .ok (.buffer b) => (okR b ⟨b.length⟩, some processedHtml)
  | .ok (.blob b) => (okR b ⟨b.length⟩, some processedHtml)
  | .ok (.other _) =>
    (failR "DOCX generation failed: Unexpected return type from html-docx-js",
     some processedHtml)

/-- `convertHtmlToDocx` called with an already well-typed options value
(zod revalidation succeeds unchanged; used by the Markdown→DOCX composer). -/
def convertHtmlToDocxWithOpts (lib : DocxLib) (html : String)
    (o : HtmlToDocxOptions) : CResult (List Nat) DocxMeta × Option String :=
  if html.isEmpty then
    (failR "Invalid HTML input: HTML must be a non-empty string", none)
  else convertHtmlToDocxTyped lib html o

/-- `HtmlToDocxConverter.convertHtmlToDocx` on a raw options value. -/
def convertHtmlToDocx (lib : DocxLib) (html : String) (options : Option JVal) :
    CResult (List Nat) DocxMeta × Option String :=
  if html.isEmpty then
    (failR "Invalid HTML input: HTML must be a non-empty string", none)
  else
    match parseHtmlToDocxOptions options with
    | .error m => (failR ("Invalid options: " ++ m), none)
    | .ok o => convertHtmlToDocxTyped lib html o

/-- `convertHtmlFileToDocx`: `read` is the `fs.readFile` outcome. -/
def convertHtmlFileToDocx (lib : DocxLib) (read : Except String String)
    (options : Option JVal) : CResult (List Nat) DocxMeta × Option String :=
  match read with
  | .error e => (failR ("Failed to read HTML file: " ++ e), none)
  | .ok html => convertHtmlToDocx lib html options

/-- `convertUrlToDocx`: `fetch` is the network outcome. -/
def convertUrlToDocx (lib : DocxLib) (url : String) (fetch : Except String FetchResp)
    (options : Option JVal) : CResult (List Nat) DocxMeta × Option String :=
  if url.isEmpty then
    (failR "Invalid URL input: URL must be a non-empty string", none)
  else
    match fetch with
    | .error e => (failR ("DOCX generation from URL failed: " ++ e), none)
    | .ok resp =>
      if !resp.ok then
        (failR ("Failed to fetch URL: " ++ toString resp.status ++ " "
          ++ resp.statusText), none)
      else convertHtmlToDocx lib resp.bodyText options

/-! ## Markdown→PDF composer (`MarkdownToPdfConverter`) -/

/-- The intermediate HTML after the optional full-document wrap of the
Markdown→PDF composer (`documentOptions?.fullDocument !== false`). -/
def mdPdfWrapped (opts : MdPdfOptions) (ih : String) : String :=
  if jsNotFalse (opts.documentOptions.bind (·.fullDocument)) then
    createFullHtmlDocument ih
      (jsOrS (opts.documentOptions.bind (·.title)) "Document")
      (opts.documentOptions.bind (·.cssStyles))
  else ih

/-- `MarkdownToPdfConverter.convertMarkdownToPdf`: stage 1 markdown→html,
optional wrap, stage 2 html→pdf, merged metadata.  The trace records the
rendering engine usage of stage 2. -/
def convertMarkdownToPdf (eng : PdfEngine) (P : MarkedFn) (S : SanitizeFn)
    (markdown : String) (options : Option JVal) :
    CResult (List Nat) MdPdfMeta × BrowserTrace :=
  if markdown.isEmpty then
    (failR "Invalid markdown input: Markdown must be a non-empty string", noBrowser)
  else
    match parseMdPdfOptions options with
    | .error m => (failR ("Invalid options: " ++ m), noBrowser)
    | .ok opts =>
      let h := convertMarkdownToHtmlTyped P S markdown (opts.markdownOptions.getD mdHtmlNone)
      match h.success && jsTruthyS h.data, h.data with
      | true, some ih =>
        let html := mdPdfWrapped opts ih
        let pr := convertHtmlToPdfWithOpts eng html (opts.pdfOptions.getD pdfOptsNone)
        match pr.1.success, pr.1.data with
        | true, some bytes =>
          (okR bytes ⟨markdown.length, html.length, bytes.length, sanFlag h.metadata⟩,
           pr.2)
        | _, _ =>
          (failR ("HTML to PDF conversion failed: " ++ jsShow pr.1.error), pr.2)
      | _, _ =>
        (failR ("Markdown to HTML conversion failed: " ++ jsShow h.error), noBrowser)

/-- `convertMarkdownFileToPdf`: `read` is the `fs.readFile` outcome. -/
def convertMarkdownFileToPdf (eng : PdfEngine) (P : MarkedFn) (S : SanitizeFn)
    (read : Except String String) (options : Option JVal) :
    CResult (List Nat) MdPdfMeta × BrowserTrace :=
  match read with
  | .error e => (failR ("Failed to read markdown file: " ++ e), noBrowser)
  | .ok markdown => convertMarkdownToPdf eng P S markdown options

/-- A `{content, title?}` section of the batch variant. -/
structure MdSection where
  content : String
  title : Option String

/-- The page-break marker inserted between consecutive sections. -/
def pageBreakSep : String :=
  "\n\n<div style=\"page-break-after: always;\"></div>\n\n"

/-- The text contributed by one section: an H1 heading when its title is
truthy, then its content. -/
def sectionPiece (s : MdSection) : String :=
  (if jsTruthyS s.title then "# " ++ jsShow s.title ++ "\n\n" else "") ++ s.content

/-- The combining loop of `convertMultipleMarkdownToPdf`: starting at index
`i`, validate each section's content and accumulate the combined Markdown
and the total content length; the first empty content aborts with its index. -/
def combineSections (i : Nat) : List MdSection → Except Nat (String × Nat)
  | [] => .ok ("", 0)
  | s :: rest =>
    if s.content.isEmpty then .error i
    else
      match combineSections (i + 1) rest with
      | .error j => .error j
      | .ok (restStr, restLen) =>
        .ok (sectionPiece s ++ (if rest.isEmpty then "" else pageBreakSep) ++ restStr,
             s.content.length + restLen)

/-- `MarkdownToPdfConverter.convertMultipleMarkdownToPdf`. -/
def convertMultipleMarkdownToPdf (eng : PdfEngine) (P : MarkedFn) (S : SanitizeFn)
    (sections : List MdSection) (options : Option JVal) :
    CResult (List Nat) MdPdfMeta × BrowserTrace :=
  if sections.isEmpty then
    (failR "Invalid input: markdownContents must be a non-empty array", noBrowser)
  else
    match combineSections 0 sections with
    | .error i =>
      (failR ("Invalid markdown content at index " ++ toString i
        ++ ": content must be a non-empty string"), noBrowser)
    | .ok (combined, total) =>
      let r := convertMarkdownToPdf eng P S combined options
      match r.1.success, r.1.metadata with
      | true, some m => ({ r.1 with metadata := some { m with markdownLength := total } }, r.2)
      | _, _ => r

/-! ## Markdown→DOCX composer (`MarkdownToDocxConverter`) -/

/-- The markdown-stage options extracted from the flat DOCX option bag. -/
def mdOptsOfDocx (opts : MdDocxOptions) : MdHtmlOptions :=
  ⟨opts.sanitize, opts.breaks, opts.gfm, opts.mangle, opts.pedantic,
   opts.sanitizerOptions⟩

/-- The DOCX-stage options extracted from the flat DOCX option bag. -/
def docxOptsOfMdDocx (opts : MdDocxOptions) : HtmlToDocxOptions :=
  ⟨opts.orientation, opts.margins, opts.title, opts.subject, opts.creator,
   opts.keywords, opts.description⟩

/-- The intermediate HTML after the optional full-document wrap of the
Markdown→DOCX composer (`opts.fullDocument !== false`). -/
def mdDocxWrapped (opts : MdDocxOptions) (ih : String) : String :=
  if jsNotFalse opts.fullDocument then
    createFullHtmlDocument ih (jsOrS opts.title "Document") opts.cssStyles
  else ih

/-- `MarkdownToDocxConverter.convertMarkdownToDocx`.  The second component
records the HTML handed to `asBlob` (`none` if the emitter was never
invoked). -/
def convertMarkdownToDocx (P : MarkedFn) (S : SanitizeFn) (lib : DocxLib)
    (markdown : String) (options : Option JVal) :
    CResult (List Nat) MdDocxMeta × Option String :=
  if markdown.isEmpty then
    (failR "Invalid markdown input: Markdown must be a non-empty string", none)
  else
    match parseMdDocxOptions options with
    | .error m => (failR ("Invalid options: " ++ m), none)
    | .ok opts =>
      let h := convertMarkdownToHtmlTyped P S markdown (mdOptsOfDocx opts)
      match h.success && jsTruthyS h.data, h.data with
      | true, some ih =>
        let html := mdDocxWrapped opts ih
        let dr := convertHtmlToDocxWithOpts lib html (docxOptsOfMdDocx opts)
        match dr.1.success, dr.1.data with
        | true, some bytes =>
          (okR bytes
            ⟨bytes.length,
             jsOrN (h.metadata.map (·.originalLength)) markdown.length,
             jsOrN (h.metadata.map (·.htmlLength)) html.length,
             sanFlag h.metadata⟩, dr.2)
        | _, _ => (failR (jsOrS dr.1.error "Failed to convert HTML to DOCX"), dr.2)
      | _, _ =>
        (failR (jsOrS h.error "Failed to convert markdown to HTML"), none)

/-- `convertMarkdownFileToDocx`: `read` is the `fs.readFile` outcome. -/
def convertMarkdownFileToDocx (P : MarkedFn) (S : SanitizeFn) (lib : DocxLib)
    (read : Except String String) (options : Option JVal) :
    CResult (List Nat) MdDocxMeta × Option String :=
  match read with
  | .error e => (failR ("Failed to read markdown file: " ++ e), none)
  | .ok markdown => convertMarkdownToDocx P S lib markdown options

/-! ## The envelope invariant -/

/-- Exactly one of `data`/`error` is present, as dictated by `success`. -/
def envOk {δ μ : Type} (r : CResult δ μ) : Prop :=
  (r.success = true → r.data.isSome = true ∧ r.error = none) ∧
  (r.success = false → r.error.isSome = true ∧ r.data = none)

/-! ## Helper lemmas: string search and join -/

theorem data_append (s t : String) : (s ++ t).data = s.data ++ t.data := by
  cases s; cases t; rfl

theorem startsWithL_iff (p l : List Char) : startsWithL p l = true ↔ p <+: l := by
  induction p generalizing l with
  | nil => simp [startsWithL, List.nil_prefix]
  | cons c cs ih =>
    cases l with
    | nil => simp [startsWithL]
    | cons d ds =>
      simp only [startsWithL, Bool.and_eq_true, beq_iff_eq, ih, List.cons_prefix_cons]

theorem containsSeq_iff (p l : List Char) : containsSeq p l = true ↔ p <:+: l := by
  induction l with
  | nil =>
    simp [containsSeq, List.isEmpty_iff, List.infix_nil]
  | cons c cs ih =>
    simp only [containsSeq, Bool.or_eq_true, startsWithL_iff, ih, List.infix_cons_iff]

theorem jsIncludes_iff (s pat : String) :
    jsIncludes s pat = true ↔ pat.data <:+: s.data := by
  simp [jsIncludes, containsSeq_iff]

theorem infix_joinSep_data {x : String} {l : List String} (sep : String)
    (hx : x ∈ l) : x.data <:+: (joinSep sep l).data := by
  induction l with
  | nil => cases hx
  | cons y ys ih =>
    cases ys with
    | nil =>
      rcases List.mem_cons.mp hx with hx | hx
      · subst hx; exact List.infix_refl _
      · cases hx
    | cons z zs =>
      rcases List.mem_cons.mp hx with hx | hx
      · subst hx
        simp only [joinSep, data_append, List.append_assoc]
        exact (List.prefix_append _ _).isInfix
      · simp only [joinSep, data_append]
        exact (ih hx).trans (List.suffix_append _ _).isInfix

theorem replFirstL_contains {p : List Char} (r : List Char) {l : List Char}
    (hp : p ≠ []) (hocc : p <:+: l) : r <:+: replFirstL p r l := by
  induction l with
  | nil =>
    rw [List.infix_nil] at hocc
    exact absurd hocc hp
  | cons c cs ih =>
    by_cases hpre : startsWithL p (c :: cs) = true
    · rw [replFirstL, if_pos hpre]
      exact (List.prefix_append r _).isInfix
    · rw [replFirstL, if_neg hpre]
      rcases List.infix_cons_iff.mp hocc with h | h
      · exact absurd ((startsWithL_iff p (c :: cs)).mpr h) hpre
      · exact List.infix_cons (ih h)

theorem replaceFirst_contains (s : String) {pat : String} (repl : String)
    (hp : pat.data ≠ []) (hocc : jsIncludes s pat = true) :
    jsIncludes (replaceFirst s pat repl) repl = true := by
  rw [jsIncludes_iff] at hocc ⊢
  exact replFirstL_contains repl.data hp hocc

theorem sub_occurs_trans {p q l : List Char} (h₁ : p <+: q) (h₂ : q <:+: l) :
    p <:+: l := h₁.isInfix.trans h₂

/-! ## Helper lemmas: envelope shapes -/

theorem envOk_failR {δ μ : Type} (e : String) : envOk (@failR δ μ e) := by
  constructor <;> intro h <;> simp [failR] at h ⊢

theorem envOk_okR {δ μ : Type} (d : δ) (m : μ) : envOk (@okR δ μ d m) := by
  constructor <;> intro h <;> simp [okR] at h ⊢

/-! ## Helper lemmas: stage result shapes -/

theorem mdHtmlTyped_success_shape (P : MarkedFn) (S : SanitizeFn) (md : String)
    (o : MdHtmlOptions) (hs : (convertMarkdownToHtmlTyped P S md o).success = true) :
    ∃ d, (convertMarkdownToHtmlTyped P S md o).data = some d ∧
      (convertMarkdownToHtmlTyped P S md o).metadata =
        some ⟨md.length, d.length, o.sanitize.getD false⟩ := by
  unfold convertMarkdownToHtmlTyped convertMarkdownToHtmlCore at hs ⊢
  by_cases hmd : md.isEmpty = true
  · rw [if_pos hmd] at hs; simp [failR] at hs
  · rw [if_neg hmd] at hs ⊢
    cases hP : P (markedConfigOf o) md with
    | error e => rw [hP] at hs; simp [failR] at hs
    | ok parsed => exact ⟨_, rfl, rfl⟩

theorem mdHtmlTyped_fail_shape (P : MarkedFn) (S : SanitizeFn) (md : String)
    (o : MdHtmlOptions) (hmd : md.isEmpty = false)
    (hs : (convertMarkdownToHtmlTyped P S md o).success = false) :
    ∃ e, P (markedConfigOf o) md = .error e ∧
      convertMarkdownToHtmlTyped P S md o =
        failR ("Markdown conversion failed: " ++ e) := by
  unfold convertMarkdownToHtmlTyped convertMarkdownToHtmlCore at hs ⊢
  rw [hmd] at hs ⊢
  simp only [Bool.false_eq_true, if_false] at hs ⊢
  cases hP : P (markedConfigOf o) md with
  | error e => exact ⟨e, rfl, rfl⟩
  | ok parsed => rw [hP] at hs; simp [okR] at hs

theorem docxWithOpts_fail_shape (lib : DocxLib) (html : String)
    (o : HtmlToDocxOptions) (hh : html.isEmpty = false)
    (hs : (convertHtmlToDocxWithOpts lib html o).1.success = false) :
    ∃ e, (convertHtmlToDocxWithOpts lib html o).1 =
      failR ("DOCX generation failed: " ++ e) := by
  unfold convertHtmlToDocxWithOpts convertHtmlToDocxTyped at hs ⊢
  rw [hh] at hs ⊢
  simp only [Bool.false_eq_true, if_false] at hs ⊢
  cases hL : lib (docxEmitInput html (mergeDocxDefaults o)) (mkLibOpts (mergeDocxDefaults o)) with
  | error e => exact ⟨e, rfl⟩
  | ok ret =>
    cases ret with
    | buffer b => rw [hL] at hs; simp [okR] at hs
    | blob b => rw [hL] at hs; simp [okR] at hs
    | other d =>
      refine ⟨"Unexpected return type from html-docx-js", ?_⟩
      have hcat : ("DOCX generation failed: "
          ++ "Unexpected return type from html-docx-js" : String)
          = "DOCX generation failed: Unexpected return type from html-docx-js" := by
        decide
      rw [hcat]

/-! ## Helper lemmas: the batch combining loop -/

theorem combineSections_ok_shape (l : List MdSection) (i : Nat) (c : String) (t : Nat)
    (h : combineSections i l = .ok (c, t)) :
    c = joinSep pageBreakSep (l.map sectionPiece) ∧
    t = (l.map fun s => s.content.length).sum := by
  induction l generalizing i c t with
  | nil =>
    rw [combineSections] at h
    cases h
    simp [joinSep]
  | cons s rest ih =>
    rw [combineSections] at h
    split at h
    · cases h
    · split at h
      · cases h
      · next restStr restLen heq =>
        cases h
        obtain ⟨hc, ht⟩ := ih (i + 1) restStr restLen heq
        subst hc ht
        cases rest with
        | nil => simp [joinSep, String.append_empty]
        | cons u us => simp [joinSep, List.isEmpty_cons, String.append_assoc]

theorem combineSections_ok_of_nonempty (l : List MdSection) (i : Nat)
    (h : ∀ s ∈ l, s.content.isEmpty = false) :
    ∃ c t, combineSections i l = .ok (c, t) := by
  induction l generalizing i with
  | nil => exact ⟨"", 0, rfl⟩
  | cons s rest ih =>
    obtain ⟨c, t, hct⟩ := ih (i + 1) (fun u hu => h u (List.mem_cons_of_mem _ hu))
    exact ⟨sectionPiece s ++ (if rest.isEmpty then "" else pageBreakSep) ++ c,
      s.content.length + t,
      by rw [combineSections, if_neg (by simp [h s (List.mem_cons_self _ _)]), hct]⟩

theorem combineSections_error_first (l : List MdSection) (k i : Nat)
    (hi : i < l.length)
    (he : (l.get ⟨i, hi⟩).content.isEmpty = true)
    (hb : ∀ j (hj : j < i), (l.get ⟨j, Nat.lt_trans hj hi⟩).content.isEmpty = false) :
    combineSections k l = .error (k + i) := by
  induction l generalizing k i with
  | nil => simp at hi
  | cons s rest ih =>
    cases i with
    | zero =>
      rw [combineSections, if_pos (by simpa using he), Nat.add_zero]
    | succ n =>
      have hs : s.content.isEmpty = false := by simpa using hb 0 (Nat.succ_pos n)
      have hi2 : n + 1 < rest.length + 1 := by simpa using hi
      have hi' : n < rest.length := Nat.lt_of_succ_lt_succ hi2
      have hrec : combineSections (k + 1) rest = .error (k + 1 + n) :=
        ih (k + 1) n hi' (by simpa using he)
          (fun j hj => by simpa using hb (j + 1) (Nat.succ_lt_succ hj))
      rw [combineSections, if_neg (by simp [hs]), hrec]
      show (Except.error (k + 1 + n) : Except Nat (String × Nat))
        = Except.error (k + (n + 1))
      congr 1
      omega

/-! ## Helper lemmas: unknown keys are invisible to `lookup` -/

theorem lookup_none_of_ne {β : Type} (k : String) (extra : List (String × β))
    (h : ∀ p ∈ extra, p.1 ≠ k) : extra.lookup k = none := by
  induction extra with
  | nil => rfl
  | cons p t ih =>
    cases p with
    | mk a b =>
      have ha : (k == a) = false := by
        simp only [beq_eq_false_iff_ne, ne_eq]
        intro hk
        exact h (a, b) (List.mem_cons_self _ _) (by simp [hk])
      simp only [List.lookup, ha]
      exact ih (fun q hq => h q (List.mem_cons_of_mem _ hq))

theorem lookup_append_unknown {β : Type} (ks : List String)
    (kvs extra : List (String × β)) (hex : ∀ p ∈ extra, p.1 ∉ ks)
    (k : String) (hk : k ∈ ks) : (kvs ++ extra).lookup k = kvs.lookup k := by
  induction kvs with
  | nil =>
    simp only [List.nil_append, List.lookup]
    exact lookup_none_of_ne k extra (fun p hp hpk => hex p hp (hpk ▸ hk))
  | cons p t ih =>
    cases p with
    | mk a b =>
      simp only [List.cons_append, List.lookup]
      cases k == a <;> simp [ih]

/-! ## Concrete oracle instances (used by witnesses and counterexamples) -/

/-- A rendering engine on which every step succeeds. -/
def engOk : PdfEngine :=
  ⟨.ok (), .ok (), fun _ => .ok (), fun _ => .ok (), fun _ _ => .ok [37, 80, 68, 70]⟩

/-- A rendering engine whose PDF-generation step raises. -/
def engRenderFail : PdfEngine :=
  ⟨.ok (), .ok (), fun _ => .ok (), fun _ => .ok (), fun _ _ => .error "render crash"⟩

/-- A `marked.parse` oracle that wraps its input in a paragraph. -/
def pOk : MarkedFn := fun _ md => .ok ("<p>" ++ md ++ "</p>")

/-- A `marked.parse` oracle that raises. -/
def pFail : MarkedFn := fun _ _ => .error "boom"

/-- A sanitizer oracle that passes HTML through unchanged. -/
def sId : SanitizeFn := fun _ h => h

/-- An `asBlob` oracle that returns a small buffer. -/
def libOk : DocxLib := fun _ _ => .ok (.buffer [80, 75, 3, 4])

/-- An `asBlob` oracle that raises. -/
def libFail : DocxLib := fun _ _ => .error "docx boom"

/-! ## Every converter result is either a failure or a success envelope -/

theorem envOk_of_cases {δ μ : Type} {r : CResult δ μ}
    (h : (∃ e, r = failR e) ∨ (∃ d m, r = okR d m)) : envOk r := by
  rcases h with ⟨e, rfl⟩ | ⟨d, m, rfl⟩
  · exact envOk_failR e
  · exact envOk_okR d m

theorem mdHtmlCore_cases (P : MarkedFn) (S : SanitizeFn) (md : String)
    (o : MdHtmlOptions) :
    (∃ e, convertMarkdownToHtmlCore P S md o = failR e) ∨
    (∃ d m, convertMarkdownToHtmlCore P S md o = okR d m) := by
  unfold convertMarkdownToHtmlCore
  dsimp only
  split
  · exact Or.inl ⟨_, rfl⟩
  · exact Or.inr ⟨_, _, rfl⟩

theorem mdHtmlTyped_cases (P : MarkedFn) (S : SanitizeFn) (md : String)
    (o : MdHtmlOptions) :
    (∃ e, convertMarkdownToHtmlTyped P S md o = failR e) ∨
    (∃ d m, convertMarkdownToHtmlTyped P S md o = okR d m) := by
  unfold convertMarkdownToHtmlTyped
  split
  · exact Or.inl ⟨_, rfl⟩
  · exact mdHtmlCore_cases P S md o

theorem mdHtml_cases (P : MarkedFn) (S : SanitizeFn) (md : String)
    (raw : Option JVal) :
    (∃ e, convertMarkdownToHtml P S md raw = failR e) ∨
    (∃ d m, convertMarkdownToHtml P S md raw = okR d m) := by
  unfold convertMarkdownToHtml
  split
  · exact Or.inl ⟨_, rfl⟩
  · split
    · exact Or.inl ⟨_, rfl⟩
    · exact mdHtmlCore_cases P S md _

theorem mdHtmlFile_cases (P : MarkedFn) (S : SanitizeFn)
    (read : Except String String) (raw : Option JVal) :
    (∃ e, convertMarkdownFileToHtml P S read raw = failR e) ∨
    (∃ d m, convertMarkdownFileToHtml P S read raw = okR d m) := by
  unfold convertMarkdownFileToHtml
  split
  · exact Or.inl ⟨_, rfl⟩
  · exact mdHtml_cases P S _ raw

theorem htmlToPdfTyped_cases (eng : PdfEngine) (html : String)
    (o : HtmlToPdfOptions) :
    (∃ e, (convertHtmlToPdfTyped eng html o).1 = failR e) ∨
    (∃ d m, (convertHtmlToPdfTyped eng html o).1 = okR d m) := by
  unfold convertHtmlToPdfTyped
  dsimp only
  repeat' split
  all_goals first
    | exact Or.inl ⟨_, rfl⟩
    | exact Or.inr ⟨_, _, rfl⟩

theorem htmlToPdfWithOpts_cases (eng : PdfEngine) (html : String)
    (o : HtmlToPdfOptions) :
    (∃ e, (convertHtmlToPdfWithOpts eng html o).1 = failR e) ∨
    (∃ d m, (convertHtmlToPdfWithOpts eng html o).1 = okR d m) := by
  unfold convertHtmlToPdfWithOpts
  split
  · exact Or.inl ⟨_, rfl⟩
  · exact htmlToPdfTyped_cases eng html o

theorem htmlToPdf_cases (eng : PdfEngine) (html : String) (raw : Option JVal) :
    (∃ e, (convertHtmlToPdf eng html raw).1 = failR e) ∨
    (∃ d m, (convertHtmlToPdf eng html raw).1 = okR d m) := by
  unfold convertHtmlToPdf
  split
  · exact Or.inl ⟨_, rfl⟩
  · split
    · exact Or.inl ⟨_, rfl⟩
    · exact htmlToPdfTyped_cases eng html _

theorem htmlFilePdf_cases (eng : PdfEngine) (read : Except String String)
    (raw : Option JVal) :
    (∃ e, (convertHtmlFileToPdf eng read raw).1 = failR e) ∨
    (∃ d m, (convertHtmlFileToPdf eng read raw).1 = okR d m) := by
  unfold convertHtmlFileToPdf
  split
  · exact Or.inl ⟨_, rfl⟩
  · exact htmlToPdf_cases eng _ raw

theorem urlToPdfTyped_cases (eng : PdfEngine) (url : String)
    (o : HtmlToPdfOptions) :
    (∃ e, (convertUrlToPdfTyped eng url o).1 = failR e) ∨
    (∃ d m, (convertUrlToPdfTyped eng url o).1 = okR d m) := by
  unfold convertUrlToPdfTyped
  dsimp only
  repeat' split
  all_goals first
    | exact Or.inl ⟨_, rfl⟩
    | exact Or.inr ⟨_, _, rfl⟩

theorem urlToPdf_cases (eng : PdfEngine) (url : String) (raw : Option JVal) :
    (∃ e, (convertUrlToPdf eng url raw).1 = failR e) ∨
    (∃ d m, (convertUrlToPdf eng url raw).1 = okR d m) := by
  unfold convertUrlToPdf
  split
  · exact Or.inl ⟨_, rfl⟩
  · split
    · exact Or.inl ⟨_, rfl⟩
    · exact urlToPdfTyped_cases eng url _

theorem docxTyped_cases (lib : DocxLib) (html : String) (o : HtmlToDocxOptions) :
    (∃ e, (convertHtmlToDocxTyped lib html o).1 = failR e) ∨
    (∃ d m, (convertHtmlToDocxTyped lib html o).1 = okR d m) := by
  unfold convertHtmlToDocxTyped
  dsimp only
  repeat' split
  all_goals first
    | exact Or.inl ⟨_, rfl⟩
    | exact Or.inr ⟨_, _, rfl⟩

theorem docxWithOpts_cases (lib : DocxLib) (html : String) (o : HtmlToDocxOptions) :
    (∃ e, (convertHtmlToDocxWithOpts lib html o).1 = failR e) ∨
    (∃ d m, (convertHtmlToDocxWithOpts lib html o).1 = okR d m) := by
  unfold convertHtmlToDocxWithOpts
  split
  · exact Or.inl ⟨_, rfl⟩
  · exact docxTyped_cases lib html o

theorem docx_cases (lib : DocxLib) (html : String) (raw : Option JVal) :
    (∃ e, (convertHtmlToDocx lib html raw).1 = failR e) ∨
    (∃ d m, (convertHtmlToDocx lib html raw).1 = okR d m) := by
  unfold convertHtmlToDocx
  split
  · exact Or.inl ⟨_, rfl⟩
  · split
    · exact Or.inl ⟨_, rfl⟩
    · exact docxTyped_cases lib html _

theorem docxFile_cases (lib : DocxLib) (read : Except String String)
    (raw : Option JVal) :
    (∃ e, (convertHtmlFileToDocx lib read raw).1 = failR e) ∨
    (∃ d m, (convertHtmlFileToDocx lib read raw).1 = okR d m) := by
  unfold convertHtmlFileToDocx
  split
  · exact Or.inl ⟨_, rfl⟩
  · exact docx_cases lib _ raw

theorem urlDocx_cases (lib : DocxLib) (url : String) (fetch : Except String FetchResp)
    (raw : Option JVal) :
    (∃ e, (convertUrlToDocx lib url fetch raw).1 = failR e) ∨
    (∃ d m, (convertUrlToDocx lib url fetch raw).1 = okR d m) := by
  unfold convertUrlToDocx
  split
  · exact Or.inl ⟨_, rfl⟩
  · split
    · exact Or.inl ⟨_, rfl⟩
    · split
      · exact Or.inl ⟨_, rfl⟩
      · exact docx_cases lib _ raw

theorem mdPdf_cases (eng : PdfEngine) (P : MarkedFn) (S : SanitizeFn)
    (md : String) (raw : Option JVal) :
    (∃ e, (convertMarkdownToPdf eng P S md raw).1 = failR e) ∨
    (∃ d m, (convertMarkdownToPdf eng P S md raw).1 = okR d m) := by
  unfold convertMarkdownToPdf
  dsimp only
  repeat' split
  all_goals first
    | exact Or.inl ⟨_, rfl⟩
    | exact Or.inr ⟨_, _, rfl⟩

theorem mdFilePdf_cases (eng : PdfEngine) (P : MarkedFn) (S : SanitizeFn)
    (read : Except String String) (raw : Option JVal) :
    (∃ e, (convertMarkdownFileToPdf eng P S read raw).1 = failR e) ∨
    (∃ d m, (convertMarkdownFileToPdf eng P S read raw).1 = okR d m) := by
  unfold convertMarkdownFileToPdf
  split
  · exact Or.inl ⟨_, rfl⟩
  · exact mdPdf_cases eng P S _ raw

theorem multiple_cases (eng : PdfEngine) (P : MarkedFn) (S : SanitizeFn)
    (sections : List MdSection) (raw : Option JVal) :
    (∃ e, (convertMultipleMarkdownToPdf eng P S sections raw).1 = failR e) ∨
    (∃ d m, (convertMultipleMarkdownToPdf eng P S sections raw).1 = okR d m) := by
  unfold convertMultipleMarkdownToPdf
  dsimp only
  split
  · exact Or.inl ⟨_, rfl⟩
  · split
    · exact Or.inl ⟨_, rfl⟩
    · next combined total heq =>
      rcases mdPdf_cases eng P S combined raw with ⟨e, he⟩ | ⟨d, m, hm⟩
      · rw [he]
        simp only [failR]
        exact Or.inl ⟨e, he⟩
      · rw [hm]
        simp only [okR]
        exact Or.inr ⟨d, _, rfl⟩

theorem mdDocx_cases (P : MarkedFn) (S : SanitizeFn) (lib : DocxLib)
    (md : String) (raw : Option JVal) :
    (∃ e, (convertMarkdownToDocx P S lib md raw).1 = failR e) ∨
    (∃ d m, (convertMarkdownToDocx P S lib md raw).1 = okR d m) := by
  unfold convertMarkdownToDocx
  dsimp only
  repeat' split
  all_goals first
    | exact Or.inl ⟨_, rfl⟩
    | exact Or.inr ⟨_, _, rfl⟩

theorem mdFileDocx_cases (P : MarkedFn) (S : SanitizeFn) (lib : DocxLib)
    (read : Except String String) (raw : Option JVal) :
    (∃ e, (convertMarkdownFileToDocx P S lib read raw).1 = failR e) ∨
    (∃ d m, (convertMarkdownFileToDocx P S lib read raw).1 = okR d m) := by
  unfold convertMarkdownFileToDocx
  split
  · exact Or.inl ⟨_, rfl⟩
  · exact mdDocx_cases P S lib _ raw

/-! ## Claim C9 -/

/-- Claim C9: every `ConversionResult` returned by any converter operation
has `data` present and `error` absent when `success` is true, and `error`
present and `data` absent when `success` is false. -/
theorem claim9_envelope :
    (∀ (P : MarkedFn) (S : SanitizeFn) (md : String) (raw : Option JVal),
      envOk (convertMarkdownToHtml P S md raw)) ∧
    (∀ (P : MarkedFn) (S : SanitizeFn) (read : Except String String) (raw : Option JVal),
      envOk (convertMarkdownFileToHtml P S read raw)) ∧
    (∀ (eng : PdfEngine) (html : String) (raw : Option JVal),
      envOk (convertHtmlToPdf eng html raw).1) ∧
    (∀ (eng : PdfEngine) (read : Except String String) (raw : Option JVal),
      envOk (convertHtmlFileToPdf eng read raw).1) ∧
    (∀ (eng : PdfEngine) (url : String) (raw : Option JVal),
      envOk (convertUrlToPdf eng url raw).1) ∧
    (∀ (lib : DocxLib) (html : String) (raw : Option JVal),
      envOk (convertHtmlToDocx lib html raw).1) ∧
    (∀ (lib : DocxLib) (read : Except String String) (raw : Option JVal),
      envOk (convertHtmlFileToDocx lib read raw).1) ∧
    (∀ (lib : DocxLib) (url : String) (fetch : Except String FetchResp) (raw : Option JVal),
      envOk (convertUrlToDocx lib url fetch raw).1) ∧
    (∀ (eng : PdfEngine) (P : MarkedFn) (S : SanitizeFn) (md : String) (raw : Option JVal),
      envOk (convertMarkdownToPdf eng P S md raw).1) ∧
    (∀ (eng : PdfEngine) (P : MarkedFn) (S : SanitizeFn) (read : Except String String)
        (raw : Option JVal),
      envOk (convertMarkdownFileToPdf eng P S read raw).1) ∧
    (∀ (eng : PdfEngine) (P : MarkedFn) (S : SanitizeFn) (sections : List MdSection)
        (raw : Option JVal),
      envOk (convertMultipleMarkdownToPdf eng P S sections raw).1) ∧
    (∀ (P : MarkedFn) (S : SanitizeFn) (lib : DocxLib) (md : String) (raw : Option JVal),
      envOk (convertMarkdownToDocx P S lib md raw).1) ∧
    (∀ (P : MarkedFn) (S : SanitizeFn) (lib : DocxLib) (read : Except String String)
        (raw : Option JVal),
      envOk (convertMarkdownFileToDocx P S lib read raw).1) :=
  ⟨fun P S md raw => envOk_of_cases (mdHtml_cases P S md raw),
   fun P S read raw => envOk_of_cases (mdHtmlFile_cases P S read raw),
   fun eng html raw => envOk_of_cases (htmlToPdf_cases eng html raw),
   fun eng read raw => envOk_of_cases (htmlFilePdf_cases eng read raw),
   fun eng url raw => envOk_of_cases (urlToPdf_cases eng url raw),
   fun lib html raw => envOk_of_cases (docx_cases lib html raw),
   fun lib read raw => envOk_of_cases (docxFile_cases lib read raw),
   fun lib url fetch raw => envOk_of_cases (urlDocx_cases lib url fetch raw),
   fun eng P S md raw => envOk_of_cases (mdPdf_cases eng P S md raw),
   fun eng P S read raw => envOk_of_cases (mdFilePdf_cases eng P S read raw),
   fun eng P S sections raw => envOk_of_cases (multiple_cases eng P S sections raw),
   fun P S lib md raw => envOk_of_cases (mdDocx_cases P S lib md raw),
   fun P S lib read raw => envOk_of_cases (mdFileDocx_cases P S lib read raw)⟩

/-- Witness for C9 at concrete inputs, one per operation. -/
theorem claim9_witness :
    envOk (convertMarkdownToHtml pOk sId "x" none) ∧
    envOk (convertMarkdownFileToHtml pOk sId (.error "nofile") none) ∧
    envOk (convertHtmlToPdf engOk "x" none).1 ∧
    envOk (convertHtmlFileToPdf engOk (.ok "x") none).1 ∧
    envOk (convertUrlToPdf engOk "http://e" none).1 ∧
    envOk (convertHtmlToDocx libOk "x" none).1 ∧
    envOk (convertHtmlFileToDocx libOk (.error "nofile") none).1 ∧
    envOk (convertUrlToDocx libOk "http://e" (.ok ⟨true, 200, "OK", "x"⟩) none).1 ∧
    envOk (convertMarkdownToPdf engOk pOk sId "x" none).1 ∧
    envOk (convertMarkdownFileToPdf engOk pOk sId (.ok "x") none).1 ∧
    envOk (convertMultipleMarkdownToPdf engOk pOk sId [⟨"A", none⟩] none).1 ∧
    envOk (convertMarkdownToDocx pOk sId libOk "x" none).1 ∧
    envOk (convertMarkdownFileToDocx pFail sId libOk (.ok "x") none).1 :=
  ⟨claim9_envelope.1 pOk sId "x" none,
   claim9_envelope.2.1 pOk sId (.error "nofile") none,
   claim9_envelope.2.2.1 engOk "x" none,
   claim9_envelope.2.2.2.1 engOk (.ok "x") none,
   claim9_envelope.2.2.2.2.1 engOk "http://e" none,
   claim9_envelope.2.2.2.2.2.1 libOk "x" none,
   claim9_envelope.2.2.2.2.2.2.1 libOk (.error "nofile") none,
   claim9_envelope.2.2.2.2.2.2.2.1 libOk "http://e" (.ok ⟨true, 200, "OK", "x"⟩) none,
   claim9_envelope.2.2.2.2.2.2.2.2.1 engOk pOk sId "x" none,
   claim9_envelope.2.2.2.2.2.2.2.2.2.1 engOk pOk sId (.ok "x") none,
   claim9_envelope.2.2.2.2.2.2.2.2.2.2.1 engOk pOk sId [⟨"A", none⟩] none,
   claim9_envelope.2.2.2.2.2.2.2.2.2.2.2.1 pOk sId libOk "x" none,
   claim9_envelope.2.2.2.2.2.2.2.2.2.2.2.2 pFail sId libOk (.ok "x") none⟩

/-! ## Claim C10 -/

/-- The top-level keys declared by `HtmlToPdfOptionsSchema`. -/
def htmlToPdfKeys : List String :=
  ["format", "margin", "printBackground", "landscape", "scale",
   "displayHeaderFooter", "headerTemplate", "footerTemplate",
   "preferCSSPageSize", "width", "height"]

/-- The top-level keys declared by `HtmlToDocxOptionsSchema`. -/
def htmlToDocxKeys : List String :=
  ["orientation", "margins", "title", "subject", "creator", "keywords",
   "description"]

/-- The top-level keys declared by `MarkdownToHtmlOptionsSchema`. -/
def mdHtmlKeys : List String :=
  ["sanitize", "breaks", "gfm", "mangle", "pedantic", "sanitizerOptions"]

/-- The top-level keys declared by `MarkdownToDocxOptionsSchema`. -/
def mdDocxKeys : List String :=
  ["sanitize", "breaks", "gfm", "mangle", "pedantic", "sanitizerOptions",
   "orientation", "margins", "title", "subject", "creator", "keywords",
   "description", "fullDocument", "cssStyles"]

/-- The top-level keys declared by `MarkdownToPdfOptionsSchema`. -/
def mdPdfKeys : List String :=
  ["markdownOptions", "pdfOptions", "documentOptions"]

/-- Claim C10: for each option schema, adding fields with undeclared keys to
an options object never changes the validation outcome — unknown fields
neither cause an error nor survive into the normalized options. -/
theorem claim10_unknown_fields :
    (∀ (kvs extra : List (String × JVal)), (∀ p ∈ extra, p.1 ∉ mdHtmlKeys) →
      parseMdHtmlOptions (some (.obj (kvs ++ extra)))
        = parseMdHtmlOptions (some (.obj kvs))) ∧
    (∀ (kvs extra : List (String × JVal)), (∀ p ∈ extra, p.1 ∉ htmlToPdfKeys) →
      parseHtmlToPdfOptions (some (.obj (kvs ++ extra)))
        = parseHtmlToPdfOptions (some (.obj kvs))) ∧
    (∀ (kvs extra : List (String × JVal)), (∀ p ∈ extra, p.1 ∉ htmlToDocxKeys) →
      parseHtmlToDocxOptions (some (.obj (kvs ++ extra)))
        = parseHtmlToDocxOptions (some (.obj kvs))) ∧
    (∀ (kvs extra : List (String × JVal)), (∀ p ∈ extra, p.1 ∉ mdDocxKeys) →
      parseMdDocxOptions (some (.obj (kvs ++ extra)))
        = parseMdDocxOptions (some (.obj kvs))) ∧
    (∀ (kvs extra : List (String × JVal)), (∀ p ∈ extra, p.1 ∉ mdPdfKeys) →
      parseMdPdfOptions (some (.obj (kvs ++ extra)))
        = parseMdPdfOptions (some (.obj kvs))) := by
  refine ⟨?_, ?_, ?_, ?_, ?_⟩
  · intro kvs extra hex
    have hl : ∀ k, k ∈ mdHtmlKeys → (kvs ++ extra).lookup k = kvs.lookup k :=
      fun k hk => lookup_append_unknown mdHtmlKeys kvs extra hex k hk
    show parseMdHtmlObj (kvs ++ extra) = parseMdHtmlObj kvs
    unfold parseMdHtmlObj
    rw [hl "sanitize" (by decide), hl "breaks" (by decide), hl "gfm" (by decide),
        hl "mangle" (by decide), hl "pedantic" (by decide),
        hl "sanitizerOptions" (by decide)]
  · intro kvs extra hex
    have hl : ∀ k, k ∈ htmlToPdfKeys → (kvs ++ extra).lookup k = kvs.lookup k :=
      fun k hk => lookup_append_unknown htmlToPdfKeys kvs extra hex k hk
    show parseHtmlToPdfObj (kvs ++ extra) = parseHtmlToPdfObj kvs
    unfold parseHtmlToPdfObj
    rw [hl "format" (by decide), hl "margin" (by decide),
        hl "printBackground" (by decide), hl "landscape" (by decide),
        hl "scale" (by decide), hl "displayHeaderFooter" (by decide),
        hl "headerTemplate" (by decide), hl "footerTemplate" (by decide),
        hl "preferCSSPageSize" (by decide), hl "width" (by decide),
        hl "height" (by decide)]
  · intro kvs extra hex
    have hl : ∀ k, k ∈ htmlToDocxKeys → (kvs ++ extra).lookup k = kvs.lookup k :=
      fun k hk => lookup_append_unknown htmlToDocxKeys kvs extra hex k hk
    show parseHtmlToDocxObj (kvs ++ extra) = parseHtmlToDocxObj kvs
    unfold parseHtmlToDocxObj
    rw [hl "orientation" (by decide), hl "margins" (by decide),
        hl "title" (by decide), hl "subject" (by decide),
        hl "creator" (by decide), hl "keywords" (by decide),
        hl "description" (by decide)]
  · intro kvs extra hex
    have hl : ∀ k, k ∈ mdDocxKeys → (kvs ++ extra).lookup k = kvs.lookup k :=
      fun k hk => lookup_append_unknown mdDocxKeys kvs extra hex k hk
    show parseMdDocxObj (kvs ++ extra) = parseMdDocxObj kvs
    unfold parseMdDocxObj
    rw [hl "sanitize" (by decide), hl "breaks" (by decide), hl "gfm" (by decide),
        hl "mangle" (by decide), hl "pedantic" (by decide),
        hl "sanitizerOptions" (by decide), hl "orientation" (by decide),
        hl "margins" (by decide), hl "title" (by decide),
        hl "subject" (by decide), hl "creator" (by decide),
        hl "keywords" (by decide), hl "description" (by decide),
        hl "fullDocument" (by decide), hl "cssStyles" (by decide)]
  · intro kvs extra hex
    have hl : ∀ k, k ∈ mdPdfKeys → (kvs ++ extra).lookup k = kvs.lookup k :=
      fun k hk => lookup_append_unknown mdPdfKeys kvs extra hex k hk
    show parseMdPdfObj (kvs ++ extra) = parseMdPdfObj kvs
    unfold parseMdPdfObj
    rw [hl "markdownOptions" (by decide), hl "pdfOptions" (by decide),
        hl "documentOptions" (by decide)]

/-- Witness for C10: concrete unknown fields are ignored by each schema. -/
theorem claim10_witness :
    parseMdHtmlOptions (some (.obj ([("gfm", .bool false)] ++ [("zzz", .str "v")])))
      = parseMdHtmlOptions (some (.obj [("gfm", .bool false)])) ∧
    parseHtmlToPdfOptions (some (.obj ([("format", .str "A4")] ++ [("zzz", .str "v")])))
      = parseHtmlToPdfOptions (some (.obj [("format", .str "A4")])) ∧
    parseHtmlToDocxOptions (some (.obj ([("title", .str "T")] ++ [("zzz", .str "v")])))
      = parseHtmlToDocxOptions (some (.obj [("title", .str "T")])) ∧
    parseMdDocxOptions (some (.obj ([("title", .str "T")] ++ [("zzz", .str "v")])))
      = parseMdDocxOptions (some (.obj [("title", .str "T")])) ∧
    parseMdPdfOptions (some (.obj ([] ++ [("zzz", .str "v")])))
      = parseMdPdfOptions (some (.obj [])) :=
  ⟨claim10_unknown_fields.1 _ _ (by decide),
   claim10_unknown_fields.2.1 _ _ (by decide),
   claim10_unknown_fields.2.2.1 _ _ (by decide),
   claim10_unknown_fields.2.2.2.1 _ _ (by decide),
   claim10_unknown_fields.2.2.2.2 _ _ (by decide)⟩

/-! ## Claim C3 -/

theorem length_ne_zero_of_isEmpty_false {s : String} (h : s.isEmpty = false) :
    s.length ≠ 0 := by
  cases s with
  | mk d =>
    cases d with
    | nil => exact absurd h (by decide)
    | cons c cs => simp [String.length]

theorem jsOrN_some_of_ne {n : Nat} (d : Nat) (h : n ≠ 0) : jsOrN (some n) d = n := by
  simp [jsOrN, h]

/-- Claim C3: a successful Markdown→DOCX conversion reports
`originalLength` equal to the input Markdown length and `htmlLength` equal
to the length of the intermediate HTML produced by the Markdown→HTML stage. -/
theorem claim3_metadata_lengths (P : MarkedFn) (S : SanitizeFn) (lib : DocxLib)
    (md : String) (raw : Option JVal)
    (hs : (convertMarkdownToDocx P S lib md raw).1.success = true) :
    ∃ (opts : MdDocxOptions) (ih : String) (m : MdDocxMeta),
      parseMdDocxOptions raw = .ok opts ∧
      (convertMarkdownToHtmlTyped P S md (mdOptsOfDocx opts)).data = some ih ∧
      (convertMarkdownToDocx P S lib md raw).1.metadata = some m ∧
      m.originalLength = md.length ∧
      m.htmlLength = ih.length := by
  unfold convertMarkdownToDocx at hs ⊢
  by_cases hmd : md.isEmpty = true
  · rw [if_pos hmd] at hs; simp [failR] at hs
  · have hmd' : md.isEmpty = false := by rwa [Bool.not_eq_true] at hmd
    rw [if_neg hmd] at hs ⊢
    cases hp : parseMdDocxOptions raw with
    | error m => rw [hp] at hs; simp [failR] at hs
    | ok opts =>
      rw [hp] at hs
      dsimp only at hs ⊢
      by_cases hsu : (convertMarkdownToHtmlTyped P S md (mdOptsOfDocx opts)).success = true
      · rw [hsu] at hs ⊢
        cases hdt : (convertMarkdownToHtmlTyped P S md (mdOptsOfDocx opts)).data with
        | none => rw [hdt] at hs; simp [jsTruthyS, failR] at hs
        | some ih =>
          rw [hdt] at hs
          by_cases hie : ih.isEmpty = true
          · rw [show jsTruthyS (some ih) = false by simp [jsTruthyS, hie]] at hs
            simp [failR] at hs
          · have hie' : ih.isEmpty = false := by rwa [Bool.not_eq_true] at hie
            have hjt : jsTruthyS (some ih) = true := by simp [jsTruthyS, hie']
            rw [hjt] at hs ⊢
            simp only [Bool.and_self] at hs ⊢
            rcases docxWithOpts_cases lib (mdDocxWrapped opts ih)
                (docxOptsOfMdDocx opts) with ⟨e, he⟩ | ⟨bytes, mm, hm⟩
            · rw [he] at hs; simp [failR] at hs
            · rw [hm] at hs ⊢
              simp only [okR] at hs ⊢
              obtain ⟨d, hd, hmeta⟩ :=
                mdHtmlTyped_success_shape P S md (mdOptsOfDocx opts) hsu
              rw [hdt] at hd
              injection hd with hd'
              subst hd'
              rw [hmeta]
              simp only [Option.map_some']
              rw [jsOrN_some_of_ne _ (length_ne_zero_of_isEmpty_false hmd'),
                  jsOrN_some_of_ne _ (length_ne_zero_of_isEmpty_false hie')]
              exact ⟨opts, ih, _, rfl, hdt, rfl, rfl, rfl⟩
      · have hsu' : (convertMarkdownToHtmlTyped P S md (mdOptsOfDocx opts)).success
            = false := by rwa [Bool.not_eq_true] at hsu
        rw [hsu'] at hs
        simp only [Bool.false_and] at hs
        simp [failR] at hs

/-- Witness for C3 at a concrete successful conversion. -/
theorem claim3_witness :
    ((convertMarkdownToDocx pOk sId libOk "x"
        (some (.obj [("fullDocument", .bool false)]))).1.success = true) ∧
    (∃ (opts : MdDocxOptions) (ih : String) (m : MdDocxMeta),
      parseMdDocxOptions (some (.obj [("fullDocument", .bool false)])) = .ok opts ∧
      (convertMarkdownToHtmlTyped pOk sId "x" (mdOptsOfDocx opts)).data = some ih ∧
      (convertMarkdownToDocx pOk sId libOk "x"
        (some (.obj [("fullDocument", .bool false)]))).1.metadata = some m ∧
      m.originalLength = "x".length ∧
      m.htmlLength = ih.length) :=
  ⟨rfl, claim3_metadata_lengths pOk sId libOk "x"
    (some (.obj [("fullDocument", .bool false)])) rfl⟩

/-! ## Claim C2 -/

theorem isEmpty_false_append (s t : String) (h : s.isEmpty = false) :
    (s ++ t).isEmpty = false := by
  rw [Bool.eq_false_iff, ne_eq, String.isEmpty_iff] at h ⊢
  intro hst
  apply h
  have hd := congrArg String.data hst
  rw [data_append] at hd
  have hs0 : s.data = [] := (List.append_eq_nil.mp hd).1
  cases s with
  | mk d =>
    have hd0 : d = [] := hs0
    subst hd0
    rfl

theorem jsOrS_some_of_ne {s : String} (d : String) (h : s.isEmpty = false) :
    jsOrS (some s) d = s := by
  simp [jsOrS, h]

set_option maxRecDepth 8192 in
theorem createFullHtmlDocument_isEmpty_false (c t : String) (css : Option String) :
    (createFullHtmlDocument c t css).isEmpty = false := by
  unfold createFullHtmlDocument
  repeat' apply isEmpty_false_append
  decide

theorem mdDocxWrapped_isEmpty_false (opts : MdDocxOptions) {ih : String}
    (h : ih.isEmpty = false) : (mdDocxWrapped opts ih).isEmpty = false := by
  unfold mdDocxWrapped
  split
  · exact createFullHtmlDocument_isEmpty_false ..
  · exact h

/-- Claim C2: when a stage of the Markdown→PDF or Markdown→DOCX pipeline
fails, the composer fails immediately with that stage's error, returns no
data buffer, leaves the downstream stage untouched, and the returned
message carries a prefix naming the failing stage. -/
theorem claim2_short_circuit :
    -- Markdown→PDF, Markdown→HTML stage fails: engine never launched,
    -- composer error prefixes the stage error
    (∀ (eng : PdfEngine) (P : MarkedFn) (S : SanitizeFn) (md : String)
        (raw : Option JVal) (opts : MdPdfOptions),
      md.isEmpty = false →
      parseMdPdfOptions raw = .ok opts →
      (convertMarkdownToHtmlTyped P S md (opts.markdownOptions.getD mdHtmlNone)).success
          = false →
      convertMarkdownToPdf eng P S md raw
        = (failR ("Markdown to HTML conversion failed: " ++ jsShow
            (convertMarkdownToHtmlTyped P S md
              (opts.markdownOptions.getD mdHtmlNone)).error), noBrowser)) ∧
    -- Markdown→PDF, binary-emission stage fails: its error is surfaced
    -- under the stage-naming prefix
    (∀ (eng : PdfEngine) (P : MarkedFn) (S : SanitizeFn) (md : String)
        (raw : Option JVal) (opts : MdPdfOptions) (ih : String),
      md.isEmpty = false →
      parseMdPdfOptions raw = .ok opts →
      (convertMarkdownToHtmlTyped P S md (opts.markdownOptions.getD mdHtmlNone)).success
          = true →
      (convertMarkdownToHtmlTyped P S md (opts.markdownOptions.getD mdHtmlNone)).data
          = some ih →
      ih.isEmpty = false →
      (convertHtmlToPdfWithOpts eng (mdPdfWrapped opts ih)
        (opts.pdfOptions.getD pdfOptsNone)).1.success = false →
      convertMarkdownToPdf eng P S md raw
        = (failR ("HTML to PDF conversion failed: " ++ jsShow
            (convertHtmlToPdfWithOpts eng (mdPdfWrapped opts ih)
              (opts.pdfOptions.getD pdfOptsNone)).1.error),
           (convertHtmlToPdfWithOpts eng (mdPdfWrapped opts ih)
             (opts.pdfOptions.getD pdfOptsNone)).2)) ∧
    -- Markdown→DOCX, Markdown→HTML stage fails: emitter never invoked,
    -- error carries the stage-naming "Markdown conversion failed:" prefix
    (∀ (P : MarkedFn) (S : SanitizeFn) (lib : DocxLib) (md : String)
        (raw : Option JVal) (opts : MdDocxOptions),
      md.isEmpty = false →
      parseMdDocxOptions raw = .ok opts →
      (convertMarkdownToHtmlTyped P S md (mdOptsOfDocx opts)).success = false →
      ∃ e, convertMarkdownToDocx P S lib md raw
        = (failR ("Markdown conversion failed: " ++ e), none)) ∧
    -- Markdown→DOCX, binary-emission stage fails: error carries the
    -- stage-naming "DOCX generation failed:" prefix
    (∀ (P : MarkedFn) (S : SanitizeFn) (lib : DocxLib) (md : String)
        (raw : Option JVal) (opts : MdDocxOptions) (ih : String),
      md.isEmpty = false →
      parseMdDocxOptions raw = .ok opts →
      (convertMarkdownToHtmlTyped P S md (mdOptsOfDocx opts)).success = true →
      (convertMarkdownToHtmlTyped P S md (mdOptsOfDocx opts)).data = some ih →
      ih.isEmpty = false →
      (convertHtmlToDocxWithOpts lib (mdDocxWrapped opts ih)
        (docxOptsOfMdDocx opts)).1.success = false →
      ∃ e, convertMarkdownToDocx P S lib md raw
        = (failR ("DOCX generation failed: " ++ e),
           (convertHtmlToDocxWithOpts lib (mdDocxWrapped opts ih)
             (docxOptsOfMdDocx opts)).2)) := by
  refine ⟨?_, ?_, ?_, ?_⟩
  · intro eng P S md raw opts hmd hp hfail
    unfold convertMarkdownToPdf
    rw [hmd]
    simp only [Bool.false_eq_true, if_false]
    rw [hp]
    dsimp only
    rw [hfail]
    simp only [Bool.false_and]
  · intro eng P S md raw opts ih hmd hp hs1 hd1 hne hp2
    unfold convertMarkdownToPdf
    rw [hmd]
    simp only [Bool.false_eq_true, if_false]
    rw [hp]
    dsimp only
    rw [hs1, hd1]
    have hjt : jsTruthyS (some ih) = true := by simp [jsTruthyS, hne]
    rw [hjt]
    simp only [Bool.and_self]
    rw [hp2]
  · intro P S lib md raw opts hmd hp hfail
    obtain ⟨e0, hPe, hres⟩ := mdHtmlTyped_fail_shape P S md (mdOptsOfDocx opts) hmd hfail
    refine ⟨e0, ?_⟩
    unfold convertMarkdownToDocx
    rw [hmd]
    simp only [Bool.false_eq_true, if_false]
    rw [hp]
    dsimp only
    rw [hres]
    simp only [failR, Bool.false_and]
    rw [jsOrS_some_of_ne _ (isEmpty_false_append _ _ (by decide))]
  · intro P S lib md raw opts ih hmd hp hs1 hd1 hne hfail2
    obtain ⟨e0, hres⟩ := docxWithOpts_fail_shape lib (mdDocxWrapped opts ih)
      (docxOptsOfMdDocx opts) (mdDocxWrapped_isEmpty_false opts hne) hfail2
    refine ⟨e0, ?_⟩
    unfold convertMarkdownToDocx
    rw [hmd]
    simp only [Bool.false_eq_true, if_false]
    rw [hp]
    dsimp only
    rw [hs1, hd1]
    have hjt : jsTruthyS (some ih) = true := by simp [jsTruthyS, hne]
    rw [hjt]
    simp only [Bool.and_self]
    rw [hres]
    simp only [failR]
    rw [jsOrS_some_of_ne _ (isEmpty_false_append _ _ (by decide))]

/-- Witness for C2: each of the four stage-failure shapes at a concrete
failing oracle. -/
theorem claim2_witness :
    (convertMarkdownToPdf engOk pFail sId "x" none
      = (failR ("Markdown to HTML conversion failed: " ++ jsShow
          (convertMarkdownToHtmlTyped pFail sId "x"
            (mdPdfNone.markdownOptions.getD mdHtmlNone)).error), noBrowser)) ∧
    (convertMarkdownToPdf engRenderFail pOk sId "x"
        (some (.obj [("documentOptions", .obj [("fullDocument", .bool false)])]))
      = (failR ("HTML to PDF conversion failed: " ++ jsShow
          (convertHtmlToPdfWithOpts engRenderFail
            (mdPdfWrapped ⟨none, none, some ⟨none, none, some false⟩⟩ "<p>x</p>")
            (pdfOptsNone)).1.error),
         (convertHtmlToPdfWithOpts engRenderFail
           (mdPdfWrapped ⟨none, none, some ⟨none, none, some false⟩⟩ "<p>x</p>")
           (pdfOptsNone)).2)) ∧
    (∃ e, convertMarkdownToDocx pFail sId libOk "x" none
      = (failR ("Markdown conversion failed: " ++ e), none)) ∧
    (∃ e, convertMarkdownToDocx pOk sId libFail "x"
        (some (.obj [("fullDocument", .bool false)]))
      = (failR ("DOCX generation failed: " ++ e),
         (convertHtmlToDocxWithOpts libFail
           (mdDocxWrapped { mdDocxNone with fullDocument := some false } "<p>x</p>")
           (docxOptsOfMdDocx { mdDocxNone with fullDocument := some false })).2)) :=
  ⟨claim2_short_circuit.1 engOk pFail sId "x" none mdPdfNone rfl rfl rfl,
   claim2_short_circuit.2.1 engRenderFail pOk sId "x"
     (some (.obj [("documentOptions", .obj [("fullDocument", .bool false)])]))
     ⟨none, none, some ⟨none, none, some false⟩⟩ "<p>x</p>" rfl rfl rfl rfl rfl rfl,
   claim2_short_circuit.2.2.1 pFail sId libOk "x" none mdDocxNone rfl rfl rfl,
   claim2_short_circuit.2.2.2 pOk sId libFail "x"
     (some (.obj [("fullDocument", .bool false)]))
     { mdDocxNone with fullDocument := some false } "<p>x</p>"
     rfl rfl rfl rfl rfl rfl⟩

/-! ## Claim C5 -/

/-- Claim C5: the batch Markdown→PDF variant combines the sections in order
(H1 heading for titled sections, page-break markers between consecutive
sections only), reports the sum of the section content lengths on success,
and fails naming the index of the first empty section content. -/
theorem claim5_batch :
    (∀ (sections : List MdSection),
      sections ≠ [] →
      (∀ s ∈ sections, s.content.isEmpty = false) →
      combineSections 0 sections
        = .ok (joinSep pageBreakSep (sections.map sectionPiece),
               (sections.map fun s => s.content.length).sum)) ∧
    (∀ (eng : PdfEngine) (P : MarkedFn) (S : SanitizeFn)
        (sections : List MdSection) (raw : Option JVal),
      (convertMultipleMarkdownToPdf eng P S sections raw).1.success = true →
      ∃ m, (convertMultipleMarkdownToPdf eng P S sections raw).1.metadata = some m ∧
        m.markdownLength = (sections.map fun s => s.content.length).sum) ∧
    (∀ (eng : PdfEngine) (P : MarkedFn) (S : SanitizeFn)
        (sections : List MdSection) (raw : Option JVal) (i : Nat)
        (hi : i < sections.length),
      (sections.get ⟨i, hi⟩).content.isEmpty = true →
      (∀ j (hj : j < i), (sections.get ⟨j, Nat.lt_trans hj hi⟩).content.isEmpty = false) →
      convertMultipleMarkdownToPdf eng P S sections raw
        = (failR ("Invalid markdown content at index " ++ toString i
            ++ ": content must be a non-empty string"), noBrowser)) := by
  refine ⟨?_, ?_, ?_⟩
  · intro sections hne hall
    obtain ⟨c, t, hct⟩ := combineSections_ok_of_nonempty sections 0 hall
    obtain ⟨hc, ht⟩ := combineSections_ok_shape sections 0 c t hct
    rw [hct, hc, ht]
  · intro eng P S sections raw hs
    unfold convertMultipleMarkdownToPdf at hs ⊢
    by_cases hse : sections.isEmpty = true
    · rw [if_pos hse] at hs; simp [failR] at hs
    · rw [if_neg hse] at hs ⊢
      cases hcs : combineSections 0 sections with
      | error i => rw [hcs] at hs; simp [failR] at hs
      | ok ct =>
        obtain ⟨c, t⟩ := ct
        rw [hcs] at hs
        dsimp only at hs ⊢
        rcases mdPdf_cases eng P S c raw with ⟨e, he⟩ | ⟨d, m, hm⟩
        · simp only [he, failR] at hs
          exact (Bool.false_ne_true hs).elim
        · rw [hm] at hs ⊢
          simp only [okR] at hs ⊢
          obtain ⟨hc', ht⟩ := combineSections_ok_shape sections 0 c t hcs
          exact ⟨_, rfl, ht⟩
  · intro eng P S sections raw i hi hie hb
    have hne : sections.isEmpty = false := by
      cases sections with
      | nil => simp at hi
      | cons a l => rfl
    have hcs : combineSections 0 sections = .error (0 + i) :=
      combineSections_error_first sections 0 i hi hie hb
    unfold convertMultipleMarkdownToPdf
    rw [if_neg (by simp [hne]), hcs]
    dsimp only
    rw [Nat.zero_add]

/-- Witness for C5: Scenario C's two-section batch, a successful batch run,
and a batch whose first section is empty. -/
theorem claim5_witness :
    combineSections 0 [⟨"A", none⟩, ⟨"B", some "Two"⟩]
      = .ok (joinSep pageBreakSep
          ([⟨"A", none⟩, ⟨"B", some "Two"⟩].map sectionPiece),
        ([(⟨"A", none⟩ : MdSection), ⟨"B", some "Two"⟩].map
          fun s => s.content.length).sum) ∧
    (∃ m, (convertMultipleMarkdownToPdf engOk pOk sId
        [⟨"A", none⟩, ⟨"B", some "Two"⟩]
        (some (.obj [("documentOptions", .obj [("fullDocument", .bool false)])]))).1.metadata
          = some m ∧
      m.markdownLength = ([(⟨"A", none⟩ : MdSection), ⟨"B", some "Two"⟩].map
        fun s => s.content.length).sum) ∧
    convertMultipleMarkdownToPdf engOk pOk sId [⟨"", none⟩, ⟨"A", none⟩] none
      = (failR ("Invalid markdown content at index " ++ toString 0
          ++ ": content must be a non-empty string"), noBrowser) :=
  ⟨claim5_batch.1 _ (List.cons_ne_nil _ _) (by decide),
   claim5_batch.2.1 engOk pOk sId _ _ rfl,
   claim5_batch.2.2 engOk pOk sId [⟨"", none⟩, ⟨"A", none⟩] none 0 (by decide) rfl
     (fun j hj => absurd hj (Nat.not_lt_zero j))⟩

/-! ## Claim C1 -/

theorem infix_append_left {x l : List Char} (r : List Char) (h : x <:+: l) :
    x <:+: l ++ r := h.trans (List.prefix_append l r).isInfix

theorem infix_append_right {x r : List Char} (l : List Char) (h : x <:+: r) :
    x <:+: l ++ r := h.trans (List.suffix_append l r).isInfix

/-- Claim C1 (amended): when one of title/subject/creator is set (non-empty),
all set metadata options among {title, subject, creator, keywords,
description} are injected into the head of the HTML handed to the DOCX
emitter — wrapping in a minimal shell when the HTML has neither `<html`
nor `<head` marker, and inserting immediately after the first `<head>`
when that exact tag occurs. -/
theorem claim1_metadata_injection (lib : DocxLib) (html : String) (raw : Option JVal)
    (o : HtmlToDocxOptions) (hh : html.isEmpty = false)
    (hp : parseHtmlToDocxOptions raw = .ok o)
    (hg : jsTruthyS (mergeDocxDefaults o).title = true
        ∨ jsTruthyS (mergeDocxDefaults o).subject = true
        ∨ jsTruthyS (mergeDocxDefaults o).creator = true) :
    ((convertHtmlToDocx lib html raw).2
      = some (docxEmitInput html (mergeDocxDefaults o))) ∧
    (jsIncludes html "<html" = false → jsIncludes html "<head" = false →
      docxEmitInput html (mergeDocxDefaults o)
          = wrapShell (headJoined (mergeDocxDefaults o)) html ∧
      (∀ x ∈ headContentOf (mergeDocxDefaults o),
        jsIncludes (docxEmitInput html (mergeDocxDefaults o)) x = true) ∧
      jsIncludes (docxEmitInput html (mergeDocxDefaults o)) html = true) ∧
    (jsIncludes html "<head>" = true →
      docxEmitInput html (mergeDocxDefaults o)
          = replaceFirst html "<head>"
              ("<head>\n              " ++ headJoined (mergeDocxDefaults o)) ∧
      jsIncludes (docxEmitInput html (mergeDocxDefaults o))
        ("<head>\n              " ++ headJoined (mergeDocxDefaults o)) = true) := by
  have hguard : (jsTruthyS (mergeDocxDefaults o).title
      || jsTruthyS (mergeDocxDefaults o).subject
      || jsTruthyS (mergeDocxDefaults o).creator) = true := by
    rcases hg with h | h | h <;> simp [h]
  refine ⟨?_, ?_, ?_⟩
  · unfold convertHtmlToDocx
    rw [hh]
    simp only [Bool.false_eq_true, if_false]
    rw [hp]
    dsimp only
    unfold convertHtmlToDocxTyped
    dsimp only
    cases lib (docxEmitInput html (mergeDocxDefaults o))
        (mkLibOpts (mergeDocxDefaults o)) with
    | error e => rfl
    | ok ret =>
      cases ret with
      | buffer b => rfl
      | blob b => rfl
      | other d => rfl
  · intro h1 h2
    have hemit : docxEmitInput html (mergeDocxDefaults o)
        = wrapShell (headJoined (mergeDocxDefaults o)) html := by
      unfold docxEmitInput
      rw [if_pos hguard, if_pos (by simp [h1, h2])]
    refine ⟨hemit, ?_, ?_⟩
    · intro x hx
      rw [hemit, jsIncludes_iff]
      unfold wrapShell
      rw [data_append, data_append, data_append, data_append]
      exact infix_append_left _ (infix_append_left _ (infix_append_left _
        (infix_append_right _ (infix_joinSep_data _ hx))))
    · rw [hemit, jsIncludes_iff]
      unfold wrapShell
      rw [data_append, data_append, data_append, data_append]
      exact infix_append_left _ (infix_append_right _ (List.infix_refl _))
  · intro hhead
    have hh2 : jsIncludes html "<head" = true := by
      rw [jsIncludes_iff] at hhead ⊢
      exact sub_occurs_trans ⟨">".data, by decide⟩ hhead
    have hemit : docxEmitInput html (mergeDocxDefaults o)
        = replaceFirst html "<head>"
            ("<head>\n              " ++ headJoined (mergeDocxDefaults o)) := by
      unfold docxEmitInput
      rw [if_pos hguard, if_neg (by simp [hh2]), if_pos hhead]
    refine ⟨hemit, ?_⟩
    rw [hemit]
    exact replaceFirst_contains html _ (by decide) hhead

/-- Counterexample to C1 as frozen: with only `keywords` set (a valid
options object), the HTML handed to the emitter is the untouched input and
contains no keywords metadata, although the claim requires injection
whenever any of the five options is set. -/
theorem claim1_counterexample :
    parseHtmlToDocxOptions (some (.obj [("keywords", .str "k")]))
      = .ok ⟨none, none, none, none, none, some "k", none⟩ ∧
    (convertHtmlToDocx libOk "<p>x</p>" (some (.obj [("keywords", .str "k")]))).2
      = some "<p>x</p>" ∧
    jsIncludes "<p>x</p>" "keywords" = false :=
  ⟨rfl, rfl, rfl⟩

/-- Witness for C1 (amended) at Scenario E's input: bare `<p>x</p>` with
`title="Report"` is wrapped in a shell whose head holds the title element. -/
theorem claim1_witness :
    ((convertHtmlToDocx libOk "<p>x</p>" (some (.obj [("title", .str "Report")]))).2
      = some (docxEmitInput "<p>x</p>"
          (mergeDocxDefaults ⟨none, none, some "Report", none, none, none, none⟩))) ∧
    (docxEmitInput "<p>x</p>"
        (mergeDocxDefaults ⟨none, none, some "Report", none, none, none, none⟩)
      = wrapShell (headJoined
          (mergeDocxDefaults ⟨none, none, some "Report", none, none, none, none⟩))
          "<p>x</p>") ∧
    jsIncludes (docxEmitInput "<p>x</p>"
        (mergeDocxDefaults ⟨none, none, some "Report", none, none, none, none⟩))
      "<title>Report</title>" = true := by
  have h := claim1_metadata_injection libOk "<p>x</p>"
    (some (.obj [("title", .str "Report")]))
    ⟨none, none, some "Report", none, none, none, none⟩ rfl rfl (Or.inl rfl)
  exact ⟨h.1, (h.2.1 rfl rfl).1, (h.2.1 rfl rfl).2.1 "<title>Report</title>" (by decide)⟩

/-! ## Claim C7 -/

/-- Claim C7: validation of the `scale` option fails at `2.1` and succeeds at
the inclusive endpoints `2.0` and `0.1` of the declared interval. -/
theorem claim7_scale_bounds :
    parseHtmlToPdfOptions (some (.obj [("scale", .num (mkRat 21 10))]))
      = .error "Number must be less than or equal to 2 at scale" ∧
    parseHtmlToPdfOptions (some (.obj [("scale", .num (mkRat 2 1))]))
      = .ok { pdfOptsNone with scale := some (mkRat 2 1) } ∧
    parseHtmlToPdfOptions (some (.obj [("scale", .num (mkRat 1 10))]))
      = .ok { pdfOptsNone with scale := some (mkRat 1 10) } :=
  ⟨rfl, rfl, rfl⟩

/-! ## Claim C6 -/

/-- Claim C6: an HTML→PDF call whose options fail schema validation returns
`success=false` with an `Invalid options:` message, and the rendering engine
is never launched; in particular `format="A6"` fails with an error naming
the `format` field. -/
theorem claim6_invalid_options :
    (∀ (eng : PdfEngine) (html : String) (raw : Option JVal) (msg : String),
      html.isEmpty = false →
      parseHtmlToPdfOptions raw = .error msg →
      convertHtmlToPdf eng html raw
        = (failR ("Invalid options: " ++ msg), noBrowser)) ∧
    (∀ eng : PdfEngine,
      (convertHtmlToPdf eng "<h1>X</h1>" (some (.obj [("format", .str "A6")]))).1.success
        = false ∧
      jsIncludes
        (jsShow (convertHtmlToPdf eng "<h1>X</h1>"
          (some (.obj [("format", .str "A6")]))).1.error) "format" = true ∧
      (convertHtmlToPdf eng "<h1>X</h1>"
        (some (.obj [("format", .str "A6")]))).2.launched = false) := by
  have hgen : ∀ (eng : PdfEngine) (html : String) (raw : Option JVal) (msg : String),
      html.isEmpty = false →
      parseHtmlToPdfOptions raw = .error msg →
      convertHtmlToPdf eng html raw
        = (failR ("Invalid options: " ++ msg), noBrowser) := by
    intro eng html raw msg hh hp
    unfold convertHtmlToPdf
    rw [hh]
    simp only [Bool.false_eq_true, if_false]
    rw [hp]
  refine ⟨hgen, fun eng => ?_⟩
  have h6 : parseHtmlToPdfOptions (some (.obj [("format", .str "A6")]))
      = .error "Invalid enum value at format" := rfl
  rw [hgen eng "<h1>X</h1>" _ _ rfl h6]
  refine ⟨rfl, ?_, rfl⟩
  decide

/-- Witness for C6 at concrete inputs. -/
theorem claim6_witness :
    convertHtmlToPdf engOk "x" (some .null)
      = (failR ("Invalid options: " ++ "Expected object"), noBrowser) ∧
    (convertHtmlToPdf engOk "<h1>X</h1>"
      (some (.obj [("format", .str "A6")]))).1.success = false :=
  ⟨claim6_invalid_options.1 engOk "x" (some .null) "Expected object" rfl rfl,
   (claim6_invalid_options.2 engOk).1⟩

/-! ## Claim C4 -/

/-- Claim C4: for HTML→PDF and URL→PDF calls, whenever the rendering engine
was launched during the call, `browser.close()` was invoked before
returning, on every exit path. -/
theorem claim4_browser_teardown :
    (∀ (eng : PdfEngine) (html : String) (raw : Option JVal),
      (convertHtmlToPdf eng html raw).2.launched = true →
      (convertHtmlToPdf eng html raw).2.closed = true) ∧
    (∀ (eng : PdfEngine) (url : String) (raw : Option JVal),
      (convertUrlToPdf eng url raw).2.launched = true →
      (convertUrlToPdf eng url raw).2.closed = true) := by
  constructor
  · intro eng html raw
    unfold convertHtmlToPdf convertHtmlToPdfTyped
    dsimp only
    repeat' split
    all_goals intro h
    all_goals first
      | rfl
      | (simp [noBrowser] at h)
  · intro eng url raw
    unfold convertUrlToPdf convertUrlToPdfTyped
    dsimp only
    repeat' split
    all_goals intro h
    all_goals first
      | rfl
      | (simp [noBrowser] at h)

/-- Witness for C4: a call on which the engine does launch is closed. -/
theorem claim4_witness :
    ((convertHtmlToPdf engOk "x" none).2.launched = true
      ∧ (convertHtmlToPdf engOk "x" none).2.closed = true) ∧
    ((convertUrlToPdf engOk "http://e" none).2.launched = true
      ∧ (convertUrlToPdf engOk "http://e" none).2.closed = true) :=
  ⟨⟨rfl, claim4_browser_teardown.1 engOk "x" none rfl⟩,
   ⟨rfl, claim4_browser_teardown.2 engOk "http://e" none rfl⟩⟩

/-! ## Claim C8 -/

/-- Claim C8: with `gfm`, `breaks`, `pedantic` all absent the parser is
configured as `{breaks := false, gfm := true, pedantic := false}`; each
explicitly supplied boolean overrides its default; and the conversion
result is the parse of the input under that configuration. -/
theorem claim8_marked_defaults :
    (∀ o : MdHtmlOptions, o.gfm = none → o.breaks = none → o.pedantic = none →
      markedConfigOf o = ⟨false, true, false⟩) ∧
    (∀ (o : MdHtmlOptions) (b : Bool), o.breaks = some b →
      (markedConfigOf o).breaks = b) ∧
    (∀ (o : MdHtmlOptions) (b : Bool), o.gfm = some b →
      (markedConfigOf o).gfm = b) ∧
    (∀ (o : MdHtmlOptions) (b : Bool), o.pedantic = some b →
      (markedConfigOf o).pedantic = b) ∧
    (∀ (P : MarkedFn) (S : SanitizeFn) (md : String) (o : MdHtmlOptions) (h : String),
      md.isEmpty = false → o.sanitize.getD false = false →
      P (markedConfigOf o) md = .ok h →
      convertMarkdownToHtmlTyped P S md o = okR h ⟨md.length, h.length, false⟩) := by
  refine ⟨?_, ?_, ?_, ?_, ?_⟩
  · intro o hg hb hp
    simp [markedConfigOf, hg, hb, hp]
  · intro o b hb
    simp [markedConfigOf, hb]
  · intro o b hb
    simp [markedConfigOf, hb]
  · intro o b hb
    simp [markedConfigOf, hb]
  · intro P S md o h hmd hsan hP
    unfold convertMarkdownToHtmlTyped convertMarkdownToHtmlCore
    rw [hmd]
    simp only [Bool.false_eq_true, if_false]
    rw [hP, hsan]
    simp

/-- Witness for C8 at concrete options and parse oracle. -/
theorem claim8_witness :
    markedConfigOf mdHtmlNone = ⟨false, true, false⟩ ∧
    (markedConfigOf { mdHtmlNone with breaks := some true }).breaks = true ∧
    (markedConfigOf { mdHtmlNone with gfm := some false }).gfm = false ∧
    (markedConfigOf { mdHtmlNone with pedantic := some true }).pedantic = true ∧
    convertMarkdownToHtmlTyped pOk sId "hi" mdHtmlNone
      = okR "<p>hi</p>" ⟨2, 9, false⟩ :=
  ⟨claim8_marked_defaults.1 mdHtmlNone rfl rfl rfl,
   claim8_marked_defaults.2.1 _ true rfl,
   claim8_marked_defaults.2.2.1 _ false rfl,
   claim8_marked_defaults.2.2.2.1 _ true rfl,
   claim8_marked_defaults.2.2.2.2 pOk sId "hi" mdHtmlNone "<p>hi</p>" rfl rfl rfl⟩

end Conv
